import Mathlib

/-!
# Mandelbox renderer and camera-path planner

A shallow embedding of `renderer.cc`: the frame renderer `renderFractal`, the
statistics sampler `renderFractal_for_path` and the path planner
`generateCameraPath`.

Conventions of the embedding.

* `double` values are elements of a linearly ordered field `K` with exact
  arithmetic: rounding is not represented, and neither are infinities and NaN,
  with two exceptions.  The one quotient of the planner whose divisor can be the
  sentinel 0 is treated by cases (`clampDirError`), and statements about a frame
  in which it is `0/0` assume that it is not (`dirErrorDefined`).  The product of
  a colour component and 255 in `renderFractal` is the exact product rounded by a
  parameter `fl`.  The definitions are computable for `K = ℚ`; the square root
  of the C library is a parameter, and statements that need it to be exact
  assume so.
* `int` values are integers; where the buffer offset of `renderFractal` leaves
  the range of `int`, or a cast to `unsigned char` is out of range, the behaviour
  is undefined and the model has no result (`none`).
* The variable `farPoint` is shared by the threads of an OpenMP region.  The
  pixel loop of `renderFractal` and the probe loop of `renderFractal_for_path`
  are executed as lists of steps on the shared variables (`pixelStep`,
  `probeStep`); the one-thread execution runs rows in increasing `j` and the
  pixels of a row in increasing `i`.  The loops written as functions
  (`sampleAllPixels`, `renderFractal_for_path`) are the one-thread execution.
* Code of other translation units (`UnProject`, `rayMarch`, `getColour`,
  `init3D`, `sqrt`, `pow`) is a parameter, collected in `Collaborators`.
* `printf`, `printProgress` and `getTime` only report progress; they do not
  change a value of the embedding and are left out.
-/

namespace Mandelbox

/-! ## Data model -/

/-- Modelled from the spec: `vec3` of `vector3d.h`, which is not among the sources, a
triple of doubles; also used for the `double[3]` arrays. -/
structure Vec3 (K : Type) where
  x : K
  y : K
  z : K
deriving DecidableEq

/-- Modelled from the spec: `pixelData`, whose declaration is not among the sources,
the result of one ray march; the fields are the ones `renderer.cc` reads and writes
(`distance`, the hit point `hit`, `escaped`). -/
structure pixelData (K : Type) where
  distance : K
  hit : Vec3 K
  escaped : Bool
deriving DecidableEq

/-- Modelled from the spec: `CameraParams`, whose declaration is not among the
sources, the camera pose; `camPos`, `camTarget` and `fov` are the fields
`renderer.cc` uses, `basis` stands for the derived data `init3D` computes. -/
structure CameraParams (K : Type) where
  camPos : Vec3 K
  camTarget : Vec3 K
  fov : K
  basis : List K
deriving DecidableEq

/-- Modelled from the spec: `RenderParams`, whose declaration is not among the
sources, the render configuration; `width`, `height` and `detail` are the fields
`renderer.cc` uses. -/
structure RenderParams (K : Type) where
  width : Int
  height : Int
  detail : K
deriving DecidableEq

/-- Functions `renderer.cc` calls but does not define. `rayMarch` returns the
`pixelData` it produces in its reference parameter and `UnProject` the point it
stores in `farPoint`: both are taken to overwrite their output completely, a
function of the other arguments. -/
structure Collaborators (K : Type) where
  sqrt : K → K
  pow : K → K → K
  UnProject : Int → Int → CameraParams K → Vec3 K
  rayMarch : RenderParams K → Vec3 K → Vec3 K → K → pixelData K
  getColour : pixelData K → RenderParams K → Vec3 K → Vec3 K → Vec3 K
  init3D : CameraParams K → RenderParams K → CameraParams K

/-- What `renderFractal_for_path` leaves in its three reference parameters. -/
structure PathSample (K : Type) where
  max_pix_data : pixelData K
  min_pix_data : pixelData K
  return_distances : Nat → pixelData K

section Model

variable {K : Type} [LinearOrderedField K]

/-! ## Vector helpers (`vector3d.h`) -/

/-- Modelled from the spec: `vec3::operator-` of `vector3d.h`, componentwise difference. -/
def Vec3.sub (a b : Vec3 K) : Vec3 K := ⟨a.x - b.x, a.y - b.y, a.z - b.z⟩

/-- Modelled from the spec: `vec3::operator+` of `vector3d.h`, componentwise sum. -/
def Vec3.add (a b : Vec3 K) : Vec3 K := ⟨a.x + b.x, a.y + b.y, a.z + b.z⟩

/-- Modelled from the spec: `vec3::operator*(double)` of `vector3d.h`, scaling. -/
def Vec3.scale (a : Vec3 K) (c : K) : Vec3 K := ⟨a.x * c, a.y * c, a.z * c⟩

/-- Sum of the squared components, the argument of `sqrt` in `MAGNITUDE`. -/
def Vec3.normSq (p : Vec3 K) : K := p.x * p.x + p.y * p.y + p.z * p.z

/-- The macro `MAGNITUDE(m,p)`: `m = sqrt(p.x*p.x + p.y*p.y + p.z*p.z)`. -/
def MAGNITUDE (sqrt : K → K) (p : Vec3 K) : K := sqrt (p.x * p.x + p.y * p.y + p.z * p.z)

/-- Modelled from the spec: `vec3::Normalize` of `vector3d.h`, which scales the
vector to unit length by the reciprocal of its magnitude. The zero vector has no
unit multiple and is left as it is. -/
def Vec3.Normalize (sqrt : K → K) (v : Vec3 K) : Vec3 K :=
  let fMag := v.x * v.x + v.y * v.y + v.z * v.z
  if fMag = 0 then v
  else
    let fMult := 1 / sqrt fMag
    ⟨v.x * fMult, v.y * fMult, v.z * fMult⟩

/-- Modelled from the spec: `SubtractDoubleDouble` of `vector3d.h`, the difference
of two `double[3]` points as a `vec3`. -/
def SubtractDoubleDouble (a b : Vec3 K) : Vec3 K := ⟨a.x - b.x, a.y - b.y, a.z - b.z⟩

/-- The loop `for (j = 0; j < n; j++) body` over an `int` bound. -/
def forLoop {σ : Type} (n : Int) (body : Nat → σ → σ) (s : σ) : σ :=
  (List.range n.toNat).foldl (fun st j => body j st) s

/-! ## The sample primitive (lines 92-100, 164-172, 203-211) -/

/-- Direction of the ray through pixel `(i, j)`: `UnProject`, subtraction of the
camera position, `Normalize`. The `farPoint` read is the one this iteration wrote:
no other thread wrote the shared `farPoint` in between (see `probeStep`). -/
def rayDirection (ext : Collaborators K) (camera_params : CameraParams K) (i j : Int) : Vec3 K :=
  let farPoint := ext.UnProject i j camera_params
  Vec3.Normalize ext.sqrt (SubtractDoubleDouble farPoint camera_params.camPos)

/-- The `pixelData` of the ray march through pixel `(i, j)`. -/
def castRay (ext : Collaborators K) (camera_params : CameraParams K)
    (renderer_params : RenderParams K) (i j : Int) : pixelData K :=
  let eps := ext.pow 10 renderer_params.detail
  ext.rayMarch renderer_params camera_params.camPos (rayDirection ext camera_params i j) eps

/-! ## `renderFractal_for_path` (lines 131-222) -/

/-- The two critical sections of lines 175-182 for one sampled pixel. -/
def updateMaxMin (st : pixelData K × pixelData K) (pix_data : pixelData K) :
    pixelData K × pixelData K :=
  let max_pix_data := if pix_data.distance > st.1.distance then pix_data else st.1
  let min_pix_data := if pix_data.distance < st.2.distance then pix_data else st.2
  (max_pix_data, min_pix_data)

/-- The pixel loops of lines 158-185, started from the sentinels of lines 145-146. -/
def sampleAllPixels (ext : Collaborators K) (camera_params : CameraParams K)
    (renderer_params : RenderParams K) (max_pix_data min_pix_data : pixelData K) :
    pixelData K × pixelData K :=
  let height := renderer_params.height
  let width := renderer_params.width
  forLoop height (fun j st =>
    forLoop width (fun i st =>
      updateMaxMin st (castRay ext camera_params renderer_params i j)) st)
    ({ max_pix_data with distance := 0 }, { min_pix_data with distance := 100 })

/-- The arrays `camera_pos_width` and `camera_pos_height` of lines 187-196 as a
function of the slot; slots outside `0..4` are not used. -/
def probeCoordinate (width height : Int) (s : Nat) : Int × Int :=
  let divisor : Int := 2
  let denom := 2 * divisor
  let h_width := Int.tdiv width 2
  let h_height := Int.tdiv height 2
  let q_width := Int.tdiv width denom
  let q_height := Int.tdiv height denom
  let left := divisor - 1
  let right := divisor + 1
  match s with
  | 0 => (h_width, h_height)
  | 1 => (left * q_width, h_height)
  | 2 => (right * q_width, h_height)
  | 3 => (h_width, right * q_height)
  | _ => (h_width, left * q_height)

/-- The body of the probe loop, lines 199-220, executed without another thread writing
`farPoint` between lines 203 and 207: three fields of slot `j` are stored. -/
def storeProbe (ext : Collaborators K) (camera_params : CameraParams K)
    (renderer_params : RenderParams K) (j : Nat) (return_distances : Nat → pixelData K) :
    Nat → pixelData K :=
  let c := probeCoordinate renderer_params.width renderer_params.height j
  let pix_data := castRay ext camera_params renderer_params c.1 c.2
  Function.update return_distances j
    { return_distances j with
      distance := pix_data.distance, hit := pix_data.hit, escaped := pix_data.escaped }

/-- The function `renderFractal_for_path` executed by one thread. -/
def renderFractal_for_path (ext : Collaborators K) (camera_params : CameraParams K)
    (renderer_params : RenderParams K) (max_pix_data min_pix_data : pixelData K)
    (return_distances : Nat → pixelData K) : PathSample K :=
  let mm := sampleAllPixels ext camera_params renderer_params max_pix_data min_pix_data
  { max_pix_data := mm.1
    min_pix_data := mm.2
    return_distances :=
      forLoop 5 (fun j rd => storeProbe ext camera_params renderer_params j rd) return_distances }

/-! ## The shared `farPoint` of the OpenMP build

`farPoint` is declared before the parallel regions and listed `shared` (lines 68/79 and
136/153), while `to` and `pix_data` are private. An iteration first lets `UnProject`
write `farPoint` and then reads it for its ray, so between the two another thread can
overwrite it. An execution of a loop is a list of these two kinds of steps; the
one-thread execution does both steps of an iteration before the next iteration. -/

/-- The `pixelData` of the ray march along the ray from the camera towards `farPoint`
(lines 168-172, 207-211). -/
def marchFrom (ext : Collaborators K) (camera_params : CameraParams K)
    (renderer_params : RenderParams K) (farPoint : Vec3 K) : pixelData K :=
  let eps := ext.pow 10 renderer_params.detail
  ext.rayMarch renderer_params camera_params.camPos
    (Vec3.Normalize ext.sqrt (SubtractDoubleDouble farPoint camera_params.camPos)) eps

/-- The two halves of iteration `j` of the probe loop: the `UnProject` call of line 203,
and lines 207-219, which read `farPoint`. -/
inductive ProbeStep where
  | project (j : Nat)
  | march (j : Nat)

/-- The shared variables of the probe loop. -/
structure ProbeState (K : Type) where
  farPoint : Vec3 K
  return_distances : Nat → pixelData K

/-- One step of the probe loop on the shared variables. -/
def probeStep (ext : Collaborators K) (camera_params : CameraParams K)
    (renderer_params : RenderParams K) (st : ProbeState K) : ProbeStep → ProbeState K
  | ProbeStep.project j =>
    let c := probeCoordinate renderer_params.width renderer_params.height j
    { st with farPoint := ext.UnProject c.1 c.2 camera_params }
  | ProbeStep.march j =>
    let pix_data := marchFrom ext camera_params renderer_params st.farPoint
    let slot : pixelData K :=
      { st.return_distances j with
        distance := pix_data.distance, hit := pix_data.hit, escaped := pix_data.escaped }
    { st with return_distances := Function.update st.return_distances j slot }

/-- The probe loop executed in the order `steps`. -/
def runProbeSteps (ext : Collaborators K) (camera_params : CameraParams K)
    (renderer_params : RenderParams K) (steps : List ProbeStep) (st : ProbeState K) :
    ProbeState K :=
  steps.foldl (probeStep ext camera_params renderer_params) st

/-- The one-thread execution of the probe loop. -/
def oneThreadProbes : List ProbeStep :=
  [ProbeStep.project 0, ProbeStep.march 0, ProbeStep.project 1, ProbeStep.march 1,
   ProbeStep.project 2, ProbeStep.march 2, ProbeStep.project 3, ProbeStep.march 3,
   ProbeStep.project 4, ProbeStep.march 4]

/-- An execution with two threads: one runs iteration 0 and the other iteration 1, and
the second calls `UnProject` before the first reads `farPoint`; iterations 2 to 4
follow one after the other. -/
def twoThreadProbes : List ProbeStep :=
  [ProbeStep.project 0, ProbeStep.project 1, ProbeStep.march 0, ProbeStep.march 1,
   ProbeStep.project 2, ProbeStep.march 2, ProbeStep.project 3, ProbeStep.march 3,
   ProbeStep.project 4, ProbeStep.march 4]

/-! ## `renderFractal` (lines 65-114)

The offset of a pixel is computed on `int` and the colour components are cast to
`unsigned char`; where the language leaves the result of either undefined, the model
has no result (`none`). The product `color.x * 255` is a product of doubles: the exact
product rounded to a double by `fl`. The loop is executed as a list of steps on the
shared variables, as the probe loop above. -/

/-- A result of arithmetic on `int`: undefined outside the range of `int`. -/
def checkInt (n : Int) : Option Int :=
  if -2147483648 ≤ n ∧ n ≤ 2147483647 then some n else none

/-- The offset `k = (j * width + i)*3` of line 104, computed on `int`. -/
def pixelOffset (width i j : Int) : Option Int :=
  (checkInt (j * width)).bind fun a =>
    (checkInt (a + i)).bind fun b => checkInt (b * 3)

/-- The cast `(unsigned char)` of a double: the fraction is discarded. The cast is
undefined when the truncated value does not fit a byte. -/
def toUChar [FloorRing K] (v : K) : Option Nat :=
  let t : Int := if 0 ≤ v then ⌊v⌋ else ⌈v⌉
  if 0 ≤ t ∧ t ≤ 255 then some t.toNat else none

/-- The byte the specification prescribes: the value clamped to `[0,255]`, as a byte. -/
def clampedByte [FloorRing K] (v : K) : Nat := ⌊max 0 (min 255 v)⌋.toNat

/-- The colour an iteration computes from the `farPoint` it reads: lines 96-103. -/
def colourFrom (ext : Collaborators K) (camera_params : CameraParams K)
    (renderer_params : RenderParams K) (farPoint : Vec3 K) : Vec3 K :=
  let eps := ext.pow 10 renderer_params.detail
  let to_ := Vec3.Normalize ext.sqrt (SubtractDoubleDouble farPoint camera_params.camPos)
  let pix_data := ext.rayMarch renderer_params camera_params.camPos to_ eps
  ext.getColour pix_data renderer_params camera_params.camPos to_

/-- The colour of pixel `(i, j)`: lines 92-103 for the ray through the pixel. -/
def pixelColour (ext : Collaborators K) (camera_params : CameraParams K)
    (renderer_params : RenderParams K) (i j : Int) : Vec3 K :=
  let to_ := rayDirection ext camera_params i j
  let pix_data := castRay ext camera_params renderer_params i j
  ext.getColour pix_data renderer_params camera_params.camPos to_

/-- The two halves of the iteration for pixel `(i, j)`: the `UnProject` call of line 92,
and lines 96-107, which read `farPoint` and store the three bytes. -/
inductive PixelStep where
  | project (i j : Int)
  | store (i j : Int)

/-- The shared variables of the pixel loop, together with the offsets stored to so
far, in the order of the stores. -/
structure RenderState (K : Type) where
  farPoint : Vec3 K
  image : Int → Nat
  stores : List Int

/-- One step of the pixel loop on the shared variables; `none` when the offset or a
cast is undefined. -/
def pixelStep [FloorRing K] (ext : Collaborators K) (fl : K → K)
    (camera_params : CameraParams K) (renderer_params : RenderParams K)
    (st : RenderState K) : PixelStep → Option (RenderState K)
  | PixelStep.project i j => some { st with farPoint := ext.UnProject i j camera_params }
  | PixelStep.store i j =>
    let color := colourFrom ext camera_params renderer_params st.farPoint
    (pixelOffset renderer_params.width i j).bind fun k =>
    (checkInt (k + 2)).bind fun k2 =>
    (toUChar (fl (color.x * 255))).bind fun r =>
    (checkInt (k + 1)).bind fun k1 =>
    (toUChar (fl (color.y * 255))).bind fun g =>
    (toUChar (fl (color.z * 255))).bind fun b =>
    some
      { st with
        image := Function.update (Function.update (Function.update st.image k2 r) k1 g) k b
        stores := st.stores ++ [k2, k1, k] }

/-- The pixel loop executed in the order `steps`. -/
def runPixelSteps [FloorRing K] (ext : Collaborators K) (fl : K → K)
    (camera_params : CameraParams K) (renderer_params : RenderParams K)
    (steps : List PixelStep) (st : Option (RenderState K)) : Option (RenderState K) :=
  steps.foldl (fun s step => s.bind fun st => pixelStep ext fl camera_params renderer_params st step)
    st

/-- The execution by one thread: rows in order, the pixels of a row in order, both
steps of a pixel before the next pixel. -/
def oneThreadPixels (width height : Int) : List PixelStep :=
  (List.range height.toNat).flatMap fun j =>
    (List.range width.toNat).flatMap fun i =>
      [PixelStep.project (i : Int) (j : Int), PixelStep.store (i : Int) (j : Int)]

/-- An execution of a 1x2 image by two threads, one row each: the thread of row 1
writes `farPoint` between line 92 and line 96 of the thread of row 0. -/
def twoThreadPixels : List PixelStep :=
  [PixelStep.project 0 0, PixelStep.project 0 1, PixelStep.store 0 0, PixelStep.store 0 1]

/-- The function `renderFractal` executed in the order `steps`, with the list of offsets
it stored to; `farPoint` is what the variable of line 68 holds on entry. -/
def renderFractalTraced [FloorRing K] (ext : Collaborators K) (fl : K → K)
    (camera_params : CameraParams K) (renderer_params : RenderParams K)
    (steps : List PixelStep) (farPoint : Vec3 K) (image : Int → Nat) :
    Option (RenderState K) :=
  runPixelSteps ext fl camera_params renderer_params steps
    (some { farPoint := farPoint, image := image, stores := [] })

/-- The function `renderFractal` executed in the order `steps`: the image memory on
return. -/
def renderFractal [FloorRing K] (ext : Collaborators K) (fl : K → K)
    (camera_params : CameraParams K) (renderer_params : RenderParams K)
    (steps : List PixelStep) (farPoint : Vec3 K) (image : Int → Nat) : Option (Int → Nat) :=
  (renderFractalTraced ext fl camera_params renderer_params steps farPoint image).map
    fun st => st.image

/-! ## `generateCameraPath` (lines 238-330) -/

/-- The variables a frame of the planner updates from the sampler result. -/
structure Motion (K : Type) where
  camera_params : CameraParams K
  direction : Vec3 K
  smooth_speed : K

/-- Lines 276-280: `smooth_speed` after the frame. -/
def nextSmoothSpeed (smooth_speed new_distance : K) : K :=
  let smooth_speed := if new_distance > 0.1 then smooth_speed * 1.1 else smooth_speed * 0.5
  if smooth_speed > 1 then 1 else if smooth_speed < 0.01 then 0.01 else smooth_speed

/-- Lines 293-296: `dir_error` from the magnitude `mag` of `direction - direction_new`
and the distance `dist` of the farthest pixel. For `dist = 0` the quotient of doubles
is an infinity with the sign of `mag`, which the two comparisons turn into 1 or 0.
The quotient `0/0` is not a number; it has no counterpart here (the value 0 stands
in for it) and `dirErrorDefined` excludes it. -/
def clampDirError (mag dist : K) : K :=
  if dist = 0 then
    if 0 < mag then 1 else 0
  else
    let dir_error := 10 * (mag / dist)
    if dir_error > 1 then 1 else if dir_error < 0.01 then 0 else dir_error

/-- The quotient of line 293 is a number (not `0/0`). -/
def dirErrorDefined (mag dist : K) : Prop := ¬ (mag = 0 ∧ dist = 0)

/-- Line 287-290: the candidate direction, towards the hit point of the farthest pixel. -/
def directionNew (sqrt : K → K) (camera_params : CameraParams K) (max_pix_data : pixelData K) :
    Vec3 K :=
  Vec3.Normalize sqrt
    ⟨max_pix_data.hit.x - camera_params.camPos.x,
     max_pix_data.hit.y - camera_params.camPos.y,
     max_pix_data.hit.z - camera_params.camPos.z⟩

/-- Lines 292-297: `smooth_direction`. -/
def smoothDirection (sqrt : K → K) (direction direction_new : Vec3 K) (dist : K) : K :=
  let max_turn_speed : K := 0.05
  let dir_error := clampDirError (MAGNITUDE sqrt (direction.sub direction_new)) dist
  max_turn_speed * dir_error

/-- Line 298, before the normalisation: the blend of the old and the candidate direction. -/
def blendDirection (sqrt : K → K) (camera_params : CameraParams K) (max_pix_data : pixelData K)
    (direction : Vec3 K) : Vec3 K :=
  let direction_new := directionNew sqrt camera_params max_pix_data
  let smooth_direction := smoothDirection sqrt direction direction_new max_pix_data.distance
  (direction.scale (1 - smooth_direction)).add (direction_new.scale smooth_direction)

/-- Lines 286-306: the direction after the steering update. -/
def steer (sqrt : K → K) (camera_params : CameraParams K) (max_pix_data : pixelData K)
    (direction : Vec3 K) : Vec3 K :=
  let direction := Vec3.Normalize sqrt (blendDirection sqrt camera_params max_pix_data direction)
  if max_pix_data.distance < 0.0001 then
    ⟨direction.x * -1, direction.y * -1, direction.z * -1⟩
  else direction

/-- Lines 310-311: `bump_factor`. -/
def bumpFactor (min_pix_data : pixelData K) : K :=
  if min_pix_data.distance < 0.001 then min_pix_data.distance / 10 else 0

/-- Lines 313-316: `bump`. -/
def bumpVector (sqrt : K → K) (camera_params : CameraParams K) (min_pix_data : pixelData K) :
    Vec3 K :=
  Vec3.Normalize sqrt
    ⟨camera_params.camPos.x - min_pix_data.hit.x,
     camera_params.camPos.y - min_pix_data.hit.y,
     camera_params.camPos.z - min_pix_data.hit.z⟩

/-- Lines 276-324: the body of the frame loop after the sampler call. -/
def moveCamera (sqrt : K → K) (camera_speed : K) (r : PathSample K) (m : Motion K) : Motion K :=
  let camera_params := m.camera_params
  let new_distance := (r.return_distances 0).distance
  let smooth_speed := nextSmoothSpeed m.smooth_speed new_distance
  let move_rate := camera_speed * smooth_speed
  let cam_dist := move_rate + 1
  let direction := steer sqrt camera_params r.max_pix_data m.direction
  let bump_factor := bumpFactor r.min_pix_data
  let bump := bumpVector sqrt camera_params r.min_pix_data
  let camPos : Vec3 K :=
    ⟨camera_params.camPos.x + (direction.x * move_rate + bump.x * bump_factor),
     camera_params.camPos.y + (direction.y * move_rate + bump.y * bump_factor),
     camera_params.camPos.z + (direction.z * move_rate + bump.z * bump_factor)⟩
  let camTarget : Vec3 K :=
    ⟨camPos.x + direction.x * cam_dist,
     camPos.y + direction.y * cam_dist,
     camPos.z + direction.z * cam_dist⟩
  { camera_params := { camera_params with camPos := camPos, camTarget := camTarget }
    direction := direction
    smooth_speed := smooth_speed }

/-- What the planner does that a caller can observe, in program order. -/
inductive PlannerEvent (K : Type) where
  | sample (camera_params : CameraParams K)
  | store (j : Nat) (pose : CameraParams K)

/-- The variables of `generateCameraPath`, with the events so far. -/
structure PlannerState (K : Type) where
  camera_params : CameraParams K
  renderer_params : RenderParams K
  camera_params_array : Nat → CameraParams K
  direction : Vec3 K
  smooth_speed : K
  max_pix_data : pixelData K
  min_pix_data : pixelData K
  return_distances : Nat → pixelData K
  events : List (PlannerEvent K)

/-- Lines 271-325: one iteration of the frame loop. -/
def planFrame (ext : Collaborators K) (camera_speed : K) (j : Nat) (s : PlannerState K) :
    PlannerState K :=
  let camera_params := ext.init3D s.camera_params s.renderer_params
  let r := renderFractal_for_path ext camera_params s.renderer_params
    s.max_pix_data s.min_pix_data s.return_distances
  let m := moveCamera ext.sqrt camera_speed r
    { camera_params := camera_params, direction := s.direction, smooth_speed := s.smooth_speed }
  { camera_params := m.camera_params
    renderer_params := s.renderer_params
    camera_params_array := Function.update s.camera_params_array j m.camera_params
    direction := m.direction
    smooth_speed := m.smooth_speed
    max_pix_data := r.max_pix_data
    min_pix_data := r.min_pix_data
    return_distances := r.return_distances
    events := s.events ++ [PlannerEvent.sample camera_params, PlannerEvent.store j m.camera_params] }

/-- Lines 241-263: the state on entry to the frame loop. The locals `max_pix_data`,
`min_pix_data` and `return_distances` are not initialised by the code; their
content is a parameter. -/
def plannerInit (camera_params : CameraParams K) (renderer_params : RenderParams K)
    (camera_params_array : Nat → CameraParams K) (max_pix_data min_pix_data : pixelData K)
    (return_distances : Nat → pixelData K) : PlannerState K :=
  { camera_params := { camera_params with fov := 1 }
    renderer_params := { renderer_params with width := 25, height := 25 }
    camera_params_array := camera_params_array
    direction := ⟨camera_params.camTarget.x, camera_params.camTarget.y, camera_params.camTarget.z⟩
    smooth_speed := 1
    max_pix_data := max_pix_data
    min_pix_data := min_pix_data
    return_distances := return_distances
    events := [] }

/-- The function `generateCameraPath`. -/
def generateCameraPath (ext : Collaborators K) (camera_params : CameraParams K)
    (renderer_params : RenderParams K) (camera_params_array : Nat → CameraParams K)
    (frames : Int) (camera_speed : K) (max_pix_data min_pix_data : pixelData K)
    (return_distances : Nat → pixelData K) : PlannerState K :=
  forLoop frames (fun j s => planFrame ext camera_speed j s)
    (plannerInit camera_params renderer_params camera_params_array max_pix_data min_pix_data
      return_distances)

/-! ## Vocabulary of the statements -/

/-- Pixel `(i, j)` lies in the image. -/
def inImage (width height i j : Int) : Prop := 0 ≤ i ∧ i < width ∧ 0 ≤ j ∧ j < height

/-- The point `b` lies at distance `d` from the point `a`. -/
def distanceIs {K : Type} [LinearOrderedField K] (a b : Vec3 K) (d : K) : Prop :=
  0 ≤ d ∧ d * d = (b.sub a).normSq

/-- Number of sampler calls among the events. -/
def sampleCount {K : Type} (es : List (PlannerEvent K)) : Nat :=
  (es.filter (fun e => match e with
    | PlannerEvent.sample _ => true
    | PlannerEvent.store _ _ => false)).length

/-- The indices of `camera_params_array` stored to, in program order. -/
def storedIndices {K : Type} (es : List (PlannerEvent K)) : List Nat :=
  es.filterMap (fun e => match e with
    | PlannerEvent.sample _ => none
    | PlannerEvent.store j _ => some j)

/-- The colours of the pixels of the image keep the contract of the colour
collaborator: every component lies in `[0,1]`. -/
def colourContract {K : Type} [LinearOrderedField K] (ext : Collaborators K)
    (camera_params : CameraParams K) (renderer_params : RenderParams K) : Prop :=
  ∀ i j : Int, inImage renderer_params.width renderer_params.height i j →
    (0 ≤ (pixelColour ext camera_params renderer_params i j).x
      ∧ (pixelColour ext camera_params renderer_params i j).x ≤ 1)
    ∧ (0 ≤ (pixelColour ext camera_params renderer_params i j).y
      ∧ (pixelColour ext camera_params renderer_params i j).y ≤ 1)
    ∧ (0 ≤ (pixelColour ext camera_params renderer_params i j).z
      ∧ (pixelColour ext camera_params renderer_params i j).z ≤ 1)

/-- Rounding of a real number to a double, as far as the bytes depend on it: a larger
number does not round to a smaller double, and 0 and 255 are doubles. -/
def roundsToDouble {K : Type} [LinearOrderedField K] (fl : K → K) : Prop :=
  Monotone fl ∧ fl 0 = 0 ∧ fl 255 = 255

/-- The state after both steps of pixel `(i, j)` when offset and casts are defined. -/
def storedPixel {K : Type} [LinearOrderedField K] [FloorRing K] (ext : Collaborators K)
    (fl : K → K) (camera_params : CameraParams K) (renderer_params : RenderParams K)
    (i j : Int) (st : RenderState K) : RenderState K :=
  let color := pixelColour ext camera_params renderer_params i j
  let k := 3 * (j * renderer_params.width + i)
  { farPoint := ext.UnProject i j camera_params
    image := Function.update (Function.update (Function.update st.image (k + 2)
      (clampedByte (fl (color.x * 255)))) (k + 1) (clampedByte (fl (color.y * 255)))) k
      (clampedByte (fl (color.z * 255)))
    stores := st.stores ++ [k + 2, k + 1, k] }

/-- The state of `renderFractal` after the first `m` pixels in row-major order:
every offset below `3*m` was stored to exactly once and no other offset was, the
memory outside is as on entry, and the three bytes of each pixel done hold its
colour. -/
def pixelsDone {K : Type} [LinearOrderedField K] [FloorRing K] (ext : Collaborators K)
    (fl : K → K) (camera_params : CameraParams K) (renderer_params : RenderParams K)
    (image : Int → Nat) (m : Int) (st : RenderState K) : Prop :=
  (∀ n : Int, st.stores.count n = if 0 ≤ n ∧ n < 3 * m then 1 else 0)
  ∧ (∀ n : Int, ¬ (0 ≤ n ∧ n < 3 * m) → st.image n = image n)
  ∧ (∀ i j : Int, 0 ≤ i → i < renderer_params.width → 0 ≤ j →
      j * renderer_params.width + i < m →
      st.image (3 * (j * renderer_params.width + i))
          = clampedByte (fl ((pixelColour ext camera_params renderer_params i j).z * 255))
      ∧ st.image (3 * (j * renderer_params.width + i) + 1)
          = clampedByte (fl ((pixelColour ext camera_params renderer_params i j).y * 255))
      ∧ st.image (3 * (j * renderer_params.width + i) + 2)
          = clampedByte (fl ((pixelColour ext camera_params renderer_params i j).x * 255)))

/-! ## Concrete scenes, for evaluating the definitions -/

/-- A square root on the rationals: exact on squares of rationals. -/
def sqrtQ (x : ℚ) : ℚ := Rat.sqrt x

/-- Collaborators whose ray march returns the same `pixelData` for every ray. -/
def constantScene (p : pixelData ℚ) : Collaborators ℚ :=
  { sqrt := sqrtQ
    pow := fun _ _ => 1 / 1000
    UnProject := fun i j _ => ⟨i, j, 1⟩
    rayMarch := fun _ _ _ _ => p
    getColour := fun q _ _ _ => ⟨q.distance, 1 / 2, 0⟩
    init3D := fun c _ => c }

/-- Collaborators whose far point is `(3,4,0)` for the pixels with `i = j` and `(4,3,0)`
for every other pixel, whose ray march reports the direction of the ray as hit point,
and whose colour is that hit point. -/
def twoRayScene : Collaborators ℚ :=
  { sqrt := sqrtQ
    pow := fun _ _ => 1 / 1000
    UnProject := fun i j _ => if i = j then ⟨3, 4, 0⟩ else ⟨4, 3, 0⟩
    rayMarch := fun _ _ to_ _ => ⟨1, to_, false⟩
    getColour := fun q _ _ _ => q.hit
    init3D := fun c _ => c }

/-- Rounding of a rational to the nearest multiple of `1/8`, ties upwards: a rounding
with three binary digits after the point. -/
def roundEighth (q : ℚ) : ℚ := (⌊q * 8 + 1 / 2⌋ : ℚ) / 8

/-- A camera at the origin looking along the x axis. -/
def originCamera : CameraParams ℚ :=
  { camPos := ⟨0, 0, 0⟩, camTarget := ⟨1, 0, 0⟩, fov := 1, basis := [] }

/-- Render parameters of a `width` by `height` image. -/
def imageParams (width height : Int) : RenderParams ℚ :=
  { width := width, height := height, detail := -3 }

/-- Content of a `pixelData` before the sampler is called. -/
def stalePixel : pixelData ℚ := { distance := 7, hit := ⟨9, 9, 9⟩, escaped := true }

/-- A sampler result: the farthest and the nearest pixel, and probes that all
report the distance `centre`. -/
def probeSample (centre : ℚ) (far near : pixelData ℚ) : PathSample ℚ :=
  { max_pix_data := far
    min_pix_data := near
    return_distances := fun _ => { distance := centre, hit := ⟨0, 0, 0⟩, escaped := false } }

/-- The planner variables of a camera at the origin that moves along the x axis. -/
def originMotion : Motion ℚ :=
  { camera_params := originCamera, direction := ⟨1, 0, 0⟩, smooth_speed := 1 }

/-- A camera away from the origin that looks at the origin. -/
def offsetCamera : CameraParams ℚ :=
  { camPos := ⟨14, 8, 10⟩, camTarget := ⟨0, 0, 0⟩, fov := 1, basis := [] }

/-- A degenerate pose: position and target are both the origin. -/
def pointCamera : CameraParams ℚ :=
  { camPos := ⟨0, 0, 0⟩, camTarget := ⟨0, 0, 0⟩, fov := 1, basis := [] }

/-- A camera at `(15/19, 0, 0)` whose target `(15/19, 1, 0)` lies one unit along the y axis. -/
def skewCamera : CameraParams ℚ :=
  { camPos := ⟨15 / 19, 0, 0⟩, camTarget := ⟨15 / 19, 1, 0⟩, fov := 1, basis := [] }

end Model


/-! ## General facts about loops -/

section Loops

variable {σ ι : Type}

theorem foldl_preserves_mem (f : σ → ι → σ) (Q : σ → Prop) :
    ∀ (l : List ι), (∀ s, ∀ a ∈ l, Q s → Q (f s a)) → ∀ s, Q s → Q (l.foldl f s) := by
  intro l
  induction l with
  | nil => intro _ s hs; simpa using hs
  | cons a l ih =>
    intro h s hs
    exact ih (fun s b hb => h s b (List.mem_cons_of_mem _ hb)) _
      (h s a (List.mem_cons_self _ _) hs)

theorem foldl_establishes (f : σ → ι → σ) (P : ι → σ → Prop) (hstep : ∀ s a, P a (f s a))
    (hkeep : ∀ s a b, P a s → P a (f s b)) :
    ∀ (l : List ι) (s : σ), ∀ a ∈ l, P a (l.foldl f s) := by
  intro l
  induction l with
  | nil => intro s a ha; simp at ha
  | cons b l ih =>
    intro s a ha
    rcases List.mem_cons.1 ha with rfl | hmem
    · exact foldl_preserves_mem f (P a) l (fun s c _ hs => hkeep s a c hs) _ (hstep s a)
    · exact ih _ a hmem

/-- A property kept by every iteration of a loop holds after the loop. -/
theorem forLoop_preserves (n : Int) (body : Nat → σ → σ) (Q : σ → Prop)
    (h : ∀ (k : Nat) (s : σ), (k : Int) < n → Q s → Q (body k s)) (s : σ) (hs : Q s) :
    Q (forLoop n body s) := by
  unfold forLoop
  refine foldl_preserves_mem _ Q _ ?_ s hs
  intro s a ha hq
  rw [List.mem_range] at ha
  exact h a s (by omega) hq

/-- What iteration `k` establishes, and later iterations keep, holds after the loop. -/
theorem forLoop_establishes (n : Int) (body : Nat → σ → σ) (P : σ → Prop) (k : Int)
    (hk0 : 0 ≤ k) (hk1 : k < n) (hstep : ∀ s, P (body k.toNat s))
    (hkeep : ∀ (b : Nat) (s : σ), P s → P (body b s)) (s : σ) :
    P (forLoop n body s) := by
  unfold forLoop
  refine foldl_establishes (fun st j => body j st) (fun a st => a = k.toNat → P st) ?_ ?_
    (List.range n.toNat) s k.toNat ?_ rfl
  · intro s a ha
    subst ha
    exact hstep s
  · intro s a b hs ha
    exact hkeep b s (hs ha)
  · rw [List.mem_range]
    omega

/-- Counting induction over a loop: the invariant `I k` holds before iteration `k`. -/
theorem forLoop_count (n : Nat) (body : Nat → σ → σ) (I : Nat → σ → Prop) (s : σ) (h0 : I 0 s)
    (hstep : ∀ (k : Nat) (st : σ), k < n → I k st → I (k + 1) (body k st)) :
    I n (forLoop (n : Int) body s) := by
  unfold forLoop
  rw [Int.toNat_ofNat]
  induction n with
  | zero => simpa using h0
  | succ m ih =>
    rw [List.range_succ, List.foldl_append]
    exact hstep m _ (Nat.lt_succ_self m)
      (ih (fun k st hk hI => hstep k st (Nat.lt_succ_of_lt hk) hI))

end Loops

/-! ## The statistics sampler -/

section Sampler

variable {K : Type} [LinearOrderedField K]

theorem updateMaxMin_covers (st : pixelData K × pixelData K) (p : pixelData K) :
    (updateMaxMin st p).2.distance ≤ p.distance ∧ p.distance ≤ (updateMaxMin st p).1.distance := by
  unfold updateMaxMin
  constructor
  · dsimp only
    split_ifs with h
    · exact le_rfl
    · exact not_lt.1 h
  · dsimp only
    split_ifs with h
    · exact le_rfl
    · exact not_lt.1 h

theorem updateMaxMin_keeps (st : pixelData K × pixelData K) (p : pixelData K) (d : K)
    (h : st.2.distance ≤ d ∧ d ≤ st.1.distance) :
    (updateMaxMin st p).2.distance ≤ d ∧ d ≤ (updateMaxMin st p).1.distance := by
  unfold updateMaxMin
  constructor
  · dsimp only
    split_ifs with h1
    · exact le_trans (le_of_lt h1) h.1
    · exact h.1
  · dsimp only
    split_ifs with h1
    · exact le_trans h.2 (le_of_lt h1)
    · exact h.2

/-- An invariant of the pixel loops: it holds for the sentinels and every sampled
pixel of the image keeps it. -/
theorem sampleAllPixels_invariant (ext : Collaborators K) (camera_params : CameraParams K)
    (renderer_params : RenderParams K) (max_pix_data min_pix_data : pixelData K)
    (Q : pixelData K × pixelData K → Prop)
    (h0 : Q ({ max_pix_data with distance := 0 }, { min_pix_data with distance := 100 }))
    (hstep : ∀ (i j : Int) (st : pixelData K × pixelData K),
      inImage renderer_params.width renderer_params.height i j → Q st →
      Q (updateMaxMin st (castRay ext camera_params renderer_params i j))) :
    Q (sampleAllPixels ext camera_params renderer_params max_pix_data min_pix_data) := by
  unfold sampleAllPixels
  refine forLoop_preserves _ _ Q ?_ _ h0
  intro j st hj hq
  refine forLoop_preserves _ _ Q ?_ _ hq
  intro i st hi hq
  exact hstep i j st ⟨by omega, hi, by omega, hj⟩ hq

/-- The running minimum and maximum enclose every pixel of the image. -/
theorem sampleAllPixels_bounds (ext : Collaborators K) (camera_params : CameraParams K)
    (renderer_params : RenderParams K) (max_pix_data min_pix_data : pixelData K) (i j : Int)
    (hpix : inImage renderer_params.width renderer_params.height i j) :
    (sampleAllPixels ext camera_params renderer_params max_pix_data min_pix_data).2.distance
      ≤ (castRay ext camera_params renderer_params i j).distance
    ∧ (castRay ext camera_params renderer_params i j).distance
      ≤ (sampleAllPixels ext camera_params renderer_params max_pix_data min_pix_data).1.distance := by
  obtain ⟨hi0, hi1, hj0, hj1⟩ := hpix
  unfold sampleAllPixels
  refine forLoop_establishes _ _
    (fun (st : pixelData K × pixelData K) =>
      st.2.distance ≤ (castRay ext camera_params renderer_params i j).distance
      ∧ (castRay ext camera_params renderer_params i j).distance ≤ st.1.distance)
    j hj0 hj1 ?_ ?_ _
  · intro s
    rw [Int.toNat_of_nonneg hj0]
    refine forLoop_establishes _ _
      (fun (st : pixelData K × pixelData K) =>
        st.2.distance ≤ (castRay ext camera_params renderer_params i j).distance
        ∧ (castRay ext camera_params renderer_params i j).distance ≤ st.1.distance)
      i hi0 hi1 ?_ ?_ _
    · intro s
      rw [Int.toNat_of_nonneg hi0]
      exact updateMaxMin_covers s _
    · intro b s hs
      exact updateMaxMin_keeps s _ _ hs
  · intro b s hs
    exact forLoop_preserves _ _ _ (fun k s _ hs => updateMaxMin_keeps s _ _ hs) s hs

/-- The maximum stays the sentinel when no pixel of the image exceeds distance 0. -/
theorem sampleAllPixels_max_sentinel (ext : Collaborators K) (camera_params : CameraParams K)
    (renderer_params : RenderParams K) (max_pix_data min_pix_data : pixelData K)
    (h : ∀ i j, inImage renderer_params.width renderer_params.height i j →
      ¬ (castRay ext camera_params renderer_params i j).distance > 0) :
    (sampleAllPixels ext camera_params renderer_params max_pix_data min_pix_data).1
      = { max_pix_data with distance := 0 } := by
  refine sampleAllPixels_invariant ext camera_params renderer_params max_pix_data min_pix_data
    (fun st => st.1 = { max_pix_data with distance := 0 }) rfl ?_
  intro i j st hpix hst
  simp only [updateMaxMin, hst]
  rw [if_neg (h i j hpix)]

/-- The minimum stays the sentinel when no pixel of the image is below distance 100. -/
theorem sampleAllPixels_min_sentinel (ext : Collaborators K) (camera_params : CameraParams K)
    (renderer_params : RenderParams K) (max_pix_data min_pix_data : pixelData K)
    (h : ∀ i j, inImage renderer_params.width renderer_params.height i j →
      ¬ (castRay ext camera_params renderer_params i j).distance < 100) :
    (sampleAllPixels ext camera_params renderer_params max_pix_data min_pix_data).2
      = { min_pix_data with distance := 100 } := by
  refine sampleAllPixels_invariant ext camera_params renderer_params max_pix_data min_pix_data
    (fun st => st.2 = { min_pix_data with distance := 100 }) rfl ?_
  intro i j st hpix hst
  simp only [updateMaxMin, hst]
  rw [if_neg (h i j hpix)]

/-- The maximum is the sentinel or the `pixelData` of a pixel of the image. -/
theorem sampleAllPixels_max_cases (ext : Collaborators K) (camera_params : CameraParams K)
    (renderer_params : RenderParams K) (max_pix_data min_pix_data : pixelData K) :
    (sampleAllPixels ext camera_params renderer_params max_pix_data min_pix_data).1
        = { max_pix_data with distance := 0 }
    ∨ ∃ i j, inImage renderer_params.width renderer_params.height i j ∧
        (sampleAllPixels ext camera_params renderer_params max_pix_data min_pix_data).1
          = castRay ext camera_params renderer_params i j := by
  refine sampleAllPixels_invariant ext camera_params renderer_params max_pix_data min_pix_data
    (fun st => st.1 = { max_pix_data with distance := 0 }
      ∨ ∃ i j, inImage renderer_params.width renderer_params.height i j ∧
        st.1 = castRay ext camera_params renderer_params i j) (Or.inl rfl) ?_
  intro i j st hpix hst
  simp only [updateMaxMin]
  split_ifs with h
  · exact Or.inr ⟨i, j, hpix, rfl⟩
  · exact hst

/-- The minimum is the sentinel or the `pixelData` of a pixel of the image. -/
theorem sampleAllPixels_min_cases (ext : Collaborators K) (camera_params : CameraParams K)
    (renderer_params : RenderParams K) (max_pix_data min_pix_data : pixelData K) :
    (sampleAllPixels ext camera_params renderer_params max_pix_data min_pix_data).2
        = { min_pix_data with distance := 100 }
    ∨ ∃ i j, inImage renderer_params.width renderer_params.height i j ∧
        (sampleAllPixels ext camera_params renderer_params max_pix_data min_pix_data).2
          = castRay ext camera_params renderer_params i j := by
  refine sampleAllPixels_invariant ext camera_params renderer_params max_pix_data min_pix_data
    (fun st => st.2 = { min_pix_data with distance := 100 }
      ∨ ∃ i j, inImage renderer_params.width renderer_params.height i j ∧
        st.2 = castRay ext camera_params renderer_params i j) (Or.inl rfl) ?_
  intro i j st hpix hst
  simp only [updateMaxMin]
  split_ifs with h
  · exact Or.inr ⟨i, j, hpix, rfl⟩
  · exact hst

end Sampler

/-! ## The path planner -/

section Planner

variable {K : Type} [LinearOrderedField K]

theorem sqrtQ_zero : sqrtQ 0 = 0 := by norm_num [sqrtQ, Rat.sqrt]

theorem sqrtQ_one : sqrtQ 1 = 1 := by norm_num [sqrtQ, Rat.sqrt]

theorem nextSmoothSpeed_range (s d : K) :
    0.01 ≤ nextSmoothSpeed s d ∧ nextSmoothSpeed s d ≤ 1 := by
  unfold nextSmoothSpeed
  dsimp only
  split_ifs with h1 h2 h3 h4 h5
  · norm_num
  · norm_num
  · exact ⟨not_lt.1 h3, not_lt.1 h2⟩
  · norm_num
  · norm_num
  · exact ⟨not_lt.1 h5, not_lt.1 h4⟩

theorem clampDirError_range (mag dist : K) :
    0 ≤ clampDirError mag dist ∧ clampDirError mag dist ≤ 1 := by
  unfold clampDirError
  dsimp only
  split_ifs with h1 h2 h3 h4
  · norm_num
  · norm_num
  · norm_num
  · norm_num
  · refine ⟨?_, not_lt.1 h3⟩
    have h01 : (0 : K) ≤ 0.01 := by norm_num
    exact le_trans h01 (not_lt.1 h4)

theorem smoothDirection_range (sqrt : K → K) (d n : Vec3 K) (dist : K) :
    0 ≤ smoothDirection sqrt d n dist ∧ smoothDirection sqrt d n dist ≤ 0.05 := by
  have h := clampDirError_range (MAGNITUDE sqrt (d.sub n)) dist
  unfold smoothDirection
  dsimp only
  constructor
  · exact mul_nonneg (by norm_num) h.1
  · have := mul_le_mul_of_nonneg_left h.2 (show (0 : K) ≤ 0.05 by norm_num)
    simpa using this

theorem normSq_nonneg (v : Vec3 K) : 0 ≤ v.normSq := by
  unfold Vec3.normSq
  nlinarith [mul_self_nonneg v.x, mul_self_nonneg v.y, mul_self_nonneg v.z]

theorem normSq_Normalize (sqrt : K → K) (v : Vec3 K)
    (hs : sqrt v.normSq * sqrt v.normSq = v.normSq) (hv : v.normSq ≠ 0) :
    (Vec3.Normalize sqrt v).normSq = 1 := by
  have hf : sqrt v.normSq ≠ 0 := by
    intro h0
    rw [h0] at hs
    exact hv (by rw [← hs]; ring)
  unfold Vec3.normSq at hs hv hf ⊢
  simp only [Vec3.Normalize, if_neg hv]
  generalize sqrt (v.x * v.x + v.y * v.y + v.z * v.z) = f at hs hf
  have h1 : v.x * (1 / f) * (v.x * (1 / f)) + v.y * (1 / f) * (v.y * (1 / f))
      + v.z * (1 / f) * (v.z * (1 / f))
      = (v.x * v.x + v.y * v.y + v.z * v.z) * (1 / f) * (1 / f) := by ring
  rw [h1, ← hs]
  field_simp

theorem Normalize_of_normSq_zero (sqrt : K → K) (v : Vec3 K) (hv : v.normSq = 0) :
    Vec3.Normalize sqrt v = v := by
  unfold Vec3.normSq at hv
  simp only [Vec3.Normalize, if_pos hv]

theorem normSq_Normalize_le (sqrt : K → K) (v : Vec3 K)
    (hs : sqrt v.normSq * sqrt v.normSq = v.normSq) :
    (Vec3.Normalize sqrt v).normSq ≤ 1 := by
  by_cases hv : v.normSq = 0
  · rw [Normalize_of_normSq_zero sqrt v hv, hv]
    exact zero_le_one
  · exact le_of_eq (normSq_Normalize sqrt v hs hv)

/-- A unit vector blended with a vector of length at most one, the weight of the
second being at most 0.05, is not the zero vector. -/
theorem blend_normSq_pos (d n : Vec3 K) (s : K) (hd : d.normSq = 1) (hn : n.normSq ≤ 1)
    (hs0 : 0 ≤ s) (hs1 : s ≤ 0.05) :
    0 < ((d.scale (1 - s)).add (n.scale s)).normSq := by
  have hn0 := normSq_nonneg n
  have hq : 0 ≤ (d.x + n.x) * (d.x + n.x) + (d.y + n.y) * (d.y + n.y)
      + (d.z + n.z) * (d.z + n.z) := by
    nlinarith [mul_self_nonneg (d.x + n.x), mul_self_nonneg (d.y + n.y),
      mul_self_nonneg (d.z + n.z)]
  have hs2 : s ≤ 1 / 20 := by
    have : (0.05 : K) = 1 / 20 := by norm_num
    rwa [this] at hs1
  have hexp : ((d.scale (1 - s)).add (n.scale s)).normSq
      = (1 - s) * (1 - 2 * s) * d.normSq + s * (2 * s - 1) * n.normSq
        + s * (1 - s) * ((d.x + n.x) * (d.x + n.x) + (d.y + n.y) * (d.y + n.y)
          + (d.z + n.z) * (d.z + n.z)) := by
    simp only [Vec3.normSq, Vec3.add, Vec3.scale]
    ring
  rw [hexp, hd]
  have h1 : 0 ≤ s * (1 - s) * ((d.x + n.x) * (d.x + n.x) + (d.y + n.y) * (d.y + n.y)
      + (d.z + n.z) * (d.z + n.z)) :=
    mul_nonneg (mul_nonneg hs0 (by linarith)) hq
  have h2 : 0 ≤ s * (1 - 2 * s) * (1 - n.normSq) :=
    mul_nonneg (mul_nonneg hs0 (by linarith)) (by linarith)
  have h3 : 0 < (1 - 2 * s) * (1 - 2 * s) := mul_pos (by linarith) (by linarith)
  nlinarith

theorem normSq_neg (v : Vec3 K) :
    (⟨v.x * -1, v.y * -1, v.z * -1⟩ : Vec3 K).normSq = v.normSq := by
  simp only [Vec3.normSq]
  ring

theorem steer_normSq (sqrt : K → K) (camera_params : CameraParams K)
    (max_pix_data : pixelData K) (direction : Vec3 K) :
    (steer sqrt camera_params max_pix_data direction).normSq
      = (Vec3.Normalize sqrt (blendDirection sqrt camera_params max_pix_data direction)).normSq := by
  unfold steer
  dsimp only
  split_ifs
  · exact normSq_neg _
  · rfl

end Planner

/-! ## Unfolding one frame of the planner -/

section FrameLemmas

variable {K : Type} [LinearOrderedField K]

theorem probe_slots (ext : Collaborators K) (camera_params : CameraParams K)
    (renderer_params : RenderParams K) (max_pix_data min_pix_data : pixelData K)
    (return_distances : Nat → pixelData K) (s : Nat) :
    (renderFractal_for_path ext camera_params renderer_params max_pix_data min_pix_data
        return_distances).return_distances s
      = if s < 5 then
          castRay ext camera_params renderer_params
            (probeCoordinate renderer_params.width renderer_params.height s).1
            (probeCoordinate renderer_params.width renderer_params.height s).2
        else return_distances s := by
  by_cases h : s < 5
  · interval_cases s <;>
      simp [renderFractal_for_path, forLoop, List.range_succ, storeProbe, Function.update]
  · have h0 : s ≠ 0 := by omega
    have h1 : s ≠ 1 := by omega
    have h2 : s ≠ 2 := by omega
    have h3 : s ≠ 3 := by omega
    have h4 : s ≠ 4 := by omega
    simp [renderFractal_for_path, forLoop, List.range_succ, storeProbe, Function.update, h, h0,
      h1, h2, h3, h4]

theorem moveCamera_camTarget (sqrt : K → K) (camera_speed : K) (r : PathSample K)
    (m : Motion K) :
    (moveCamera sqrt camera_speed r m).camera_params.camTarget
      = (moveCamera sqrt camera_speed r m).camera_params.camPos.add
          ((moveCamera sqrt camera_speed r m).direction.scale
            (camera_speed * (moveCamera sqrt camera_speed r m).smooth_speed + 1)) := rfl

theorem moveCamera_camPos (sqrt : K → K) (camera_speed : K) (r : PathSample K)
    (m : Motion K) :
    (moveCamera sqrt camera_speed r m).camera_params.camPos
      = m.camera_params.camPos.add
          (((moveCamera sqrt camera_speed r m).direction.scale
              (camera_speed * (moveCamera sqrt camera_speed r m).smooth_speed)).add
            ((bumpVector sqrt m.camera_params r.min_pix_data).scale
              (bumpFactor r.min_pix_data))) := rfl

/-- Without a bump the camera is displaced along the steered direction only. -/
theorem moveCamera_camPos_no_bump (sqrt : K → K) (camera_speed : K) (r : PathSample K)
    (m : Motion K) (h : 0.001 ≤ r.min_pix_data.distance) :
    (moveCamera sqrt camera_speed r m).camera_params.camPos
      = m.camera_params.camPos.add
          ((moveCamera sqrt camera_speed r m).direction.scale
            (camera_speed * (moveCamera sqrt camera_speed r m).smooth_speed)) := by
  rw [moveCamera_camPos]
  have hb : bumpFactor r.min_pix_data = 0 := by
    unfold bumpFactor
    rw [if_neg (not_lt.2 h)]
  rw [hb]
  simp [Vec3.add, Vec3.scale]

theorem planFrame_min_pix_data (ext : Collaborators K) (camera_speed : K) (j : Nat)
    (s : PlannerState K) :
    (planFrame ext camera_speed j s).min_pix_data
      = (renderFractal_for_path ext (ext.init3D s.camera_params s.renderer_params)
          s.renderer_params s.max_pix_data s.min_pix_data s.return_distances).min_pix_data := rfl

theorem planFrame_camera_params (ext : Collaborators K) (camera_speed : K) (j : Nat)
    (s : PlannerState K) :
    (planFrame ext camera_speed j s).camera_params
      = (moveCamera ext.sqrt camera_speed
          (renderFractal_for_path ext (ext.init3D s.camera_params s.renderer_params)
            s.renderer_params s.max_pix_data s.min_pix_data s.return_distances)
          { camera_params := ext.init3D s.camera_params s.renderer_params
            direction := s.direction
            smooth_speed := s.smooth_speed }).camera_params := rfl

theorem planFrame_direction (ext : Collaborators K) (camera_speed : K) (j : Nat)
    (s : PlannerState K) :
    (planFrame ext camera_speed j s).direction
      = (moveCamera ext.sqrt camera_speed
          (renderFractal_for_path ext (ext.init3D s.camera_params s.renderer_params)
            s.renderer_params s.max_pix_data s.min_pix_data s.return_distances)
          { camera_params := ext.init3D s.camera_params s.renderer_params
            direction := s.direction
            smooth_speed := s.smooth_speed }).direction := rfl

theorem planFrame_smooth_speed (ext : Collaborators K) (camera_speed : K) (j : Nat)
    (s : PlannerState K) :
    (planFrame ext camera_speed j s).smooth_speed
      = (moveCamera ext.sqrt camera_speed
          (renderFractal_for_path ext (ext.init3D s.camera_params s.renderer_params)
            s.renderer_params s.max_pix_data s.min_pix_data s.return_distances)
          { camera_params := ext.init3D s.camera_params s.renderer_params
            direction := s.direction
            smooth_speed := s.smooth_speed }).smooth_speed := rfl

/-- The run with one frame is the frame with index 0 on the initial state. -/
theorem generateCameraPath_one (ext : Collaborators K) (camera_params : CameraParams K)
    (renderer_params : RenderParams K) (camera_params_array : Nat → CameraParams K)
    (camera_speed : K) (max_pix_data min_pix_data : pixelData K)
    (return_distances : Nat → pixelData K) :
    generateCameraPath ext camera_params renderer_params camera_params_array 1 camera_speed
        max_pix_data min_pix_data return_distances
      = planFrame ext camera_speed 0
          (plannerInit camera_params renderer_params camera_params_array max_pix_data
            min_pix_data return_distances) := by
  simp [generateCameraPath, forLoop, List.range_succ]

/-- The sampler on a scene whose rays all return `p`, with `p` at distance 100 or more. -/
theorem constantScene_sample (p : pixelData ℚ) (camera_params : CameraParams ℚ)
    (renderer_params : RenderParams ℚ) (max_pix_data min_pix_data : pixelData ℚ)
    (return_distances : Nat → pixelData ℚ) (hw : 0 < renderer_params.width)
    (hh : 0 < renderer_params.height) (hp : 100 ≤ p.distance) :
    renderFractal_for_path (constantScene p) camera_params renderer_params max_pix_data
        min_pix_data return_distances
      = { max_pix_data := p
          min_pix_data := { min_pix_data with distance := 100 }
          return_distances := fun s => if s < 5 then p else return_distances s } := by
  have hmax : (sampleAllPixels (constantScene p) camera_params renderer_params max_pix_data
      min_pix_data).1 = p := by
    rcases sampleAllPixels_max_cases (constantScene p) camera_params renderer_params
      max_pix_data min_pix_data with hs | ⟨a, b, _, hs⟩
    · have hb := (sampleAllPixels_bounds (constantScene p) camera_params renderer_params
        max_pix_data min_pix_data 0 0 ⟨le_refl _, hw, le_refl _, hh⟩).2
      rw [hs] at hb
      have hb' : p.distance ≤ 0 := hb
      linarith
    · exact hs
  have hmin : (sampleAllPixels (constantScene p) camera_params renderer_params max_pix_data
      min_pix_data).2 = { min_pix_data with distance := 100 } := by
    refine sampleAllPixels_min_sentinel _ _ _ _ _ ?_
    intro a b _
    exact not_lt.2 hp
  have hret : (renderFractal_for_path (constantScene p) camera_params renderer_params
      max_pix_data min_pix_data return_distances).return_distances
      = fun s => if s < 5 then p else return_distances s := by
    funext s
    rw [probe_slots]
    rfl
  calc renderFractal_for_path (constantScene p) camera_params renderer_params max_pix_data
        min_pix_data return_distances
      = { max_pix_data := (sampleAllPixels (constantScene p) camera_params renderer_params
            max_pix_data min_pix_data).1
          min_pix_data := (sampleAllPixels (constantScene p) camera_params renderer_params
            max_pix_data min_pix_data).2
          return_distances := (renderFractal_for_path (constantScene p) camera_params
            renderer_params max_pix_data min_pix_data return_distances).return_distances } := rfl
    _ = _ := by rw [hmax, hmin, hret]

/-- The sampler on a scene whose rays all return `p`, with `p` at a distance
between 0 and 100. -/
theorem constantScene_sample_near (p : pixelData ℚ) (camera_params : CameraParams ℚ)
    (renderer_params : RenderParams ℚ) (max_pix_data min_pix_data : pixelData ℚ)
    (return_distances : Nat → pixelData ℚ) (hw : 0 < renderer_params.width)
    (hh : 0 < renderer_params.height) (hp0 : 0 < p.distance) (hp1 : p.distance < 100) :
    renderFractal_for_path (constantScene p) camera_params renderer_params max_pix_data
        min_pix_data return_distances
      = { max_pix_data := p
          min_pix_data := p
          return_distances := fun s => if s < 5 then p else return_distances s } := by
  have hb := sampleAllPixels_bounds (constantScene p) camera_params renderer_params
    max_pix_data min_pix_data 0 0 ⟨le_refl _, hw, le_refl _, hh⟩
  have hmax : (sampleAllPixels (constantScene p) camera_params renderer_params max_pix_data
      min_pix_data).1 = p := by
    rcases sampleAllPixels_max_cases (constantScene p) camera_params renderer_params
      max_pix_data min_pix_data with hs | ⟨a, b, _, hs⟩
    · have h2 := hb.2
      rw [hs] at h2
      have hb' : p.distance ≤ 0 := h2
      linarith
    · exact hs
  have hmin : (sampleAllPixels (constantScene p) camera_params renderer_params max_pix_data
      min_pix_data).2 = p := by
    rcases sampleAllPixels_min_cases (constantScene p) camera_params renderer_params
      max_pix_data min_pix_data with hs | ⟨a, b, _, hs⟩
    · have h1 := hb.1
      rw [hs] at h1
      have hb' : (100 : ℚ) ≤ p.distance := h1
      linarith
    · exact hs
  have hret : (renderFractal_for_path (constantScene p) camera_params renderer_params
      max_pix_data min_pix_data return_distances).return_distances
      = fun s => if s < 5 then p else return_distances s := by
    funext s
    rw [probe_slots]
    rfl
  calc renderFractal_for_path (constantScene p) camera_params renderer_params max_pix_data
        min_pix_data return_distances
      = { max_pix_data := (sampleAllPixels (constantScene p) camera_params renderer_params
            max_pix_data min_pix_data).1
          min_pix_data := (sampleAllPixels (constantScene p) camera_params renderer_params
            max_pix_data min_pix_data).2
          return_distances := (renderFractal_for_path (constantScene p) camera_params
            renderer_params max_pix_data min_pix_data return_distances).return_distances } := rfl
    _ = _ := by rw [hmax, hmin, hret]

theorem sqrtQ_four : sqrtQ 4 = 2 := by norm_num [sqrtQ, Rat.sqrt]

theorem sqrtQ_nine : sqrtQ 9 = 3 := by norm_num [sqrtQ, Rat.sqrt]

theorem sqrtQ_sq (q : ℚ) (h : 0 ≤ q) : sqrtQ (q * q) = q := by
  unfold sqrtQ
  rw [Rat.sqrt_eq, abs_of_nonneg h]

theorem sqrtQ_225_361 : sqrtQ (225 / 361) = 15 / 19 := by
  have h := sqrtQ_sq (15 / 19) (by norm_num)
  norm_num at h
  exact h

theorem sqrtQ_25_16 : sqrtQ (25 / 16) = 5 / 4 := by
  have h := sqrtQ_sq (5 / 4) (by norm_num)
  norm_num at h
  exact h

theorem castRay_eq_marchFrom (ext : Collaborators K) (camera_params : CameraParams K)
    (renderer_params : RenderParams K) (i j : Int) :
    castRay ext camera_params renderer_params i j
      = marchFrom ext camera_params renderer_params (ext.UnProject i j camera_params) := rfl

/-- The one-thread execution of the probe loop is the loop of `renderFractal_for_path`,
whatever `farPoint` held before. -/
theorem runProbeSteps_oneThread (ext : Collaborators K) (camera_params : CameraParams K)
    (renderer_params : RenderParams K) (max_pix_data min_pix_data : pixelData K)
    (farPoint : Vec3 K) (return_distances : Nat → pixelData K) :
    (runProbeSteps ext camera_params renderer_params oneThreadProbes
        { farPoint := farPoint, return_distances := return_distances }).return_distances
      = (renderFractal_for_path ext camera_params renderer_params max_pix_data min_pix_data
          return_distances).return_distances := by
  simp [runProbeSteps, oneThreadProbes, probeStep, renderFractal_for_path, forLoop,
    List.range_succ, storeProbe, castRay_eq_marchFrom]

theorem sqrtQ_25 : sqrtQ 25 = 5 := by norm_num [sqrtQ, Rat.sqrt]

end FrameLemmas

/-! ## The frame loop of the planner -/

section Frames

variable {K : Type} [LinearOrderedField K]

theorem generateCameraPath_succ (ext : Collaborators K) (camera_params : CameraParams K)
    (renderer_params : RenderParams K) (camera_params_array : Nat → CameraParams K)
    (camera_speed : K) (max_pix_data min_pix_data : pixelData K)
    (return_distances : Nat → pixelData K) (n : Nat) :
    generateCameraPath ext camera_params renderer_params camera_params_array ((n : Int) + 1)
        camera_speed max_pix_data min_pix_data return_distances
      = planFrame ext camera_speed n
          (generateCameraPath ext camera_params renderer_params camera_params_array (n : Int)
            camera_speed max_pix_data min_pix_data return_distances) := by
  unfold generateCameraPath forLoop
  have h1 : ((n : Int) + 1).toNat = n + 1 := by omega
  rw [h1, Int.toNat_ofNat, List.range_succ, List.foldl_append]
  rfl

theorem sampleCount_append_frame {F : Type} (es : List (PlannerEvent F)) (c p : CameraParams F)
    (j : Nat) :
    sampleCount (es ++ [PlannerEvent.sample c, PlannerEvent.store j p]) = sampleCount es + 1 := by
  simp [sampleCount, List.filter_append]

theorem storedIndices_append_frame {F : Type} (es : List (PlannerEvent F))
    (c p : CameraParams F) (j : Nat) :
    storedIndices (es ++ [PlannerEvent.sample c, PlannerEvent.store j p])
      = storedIndices es ++ [j] := by
  simp [storedIndices, List.filterMap_append]

/-- The state after `n` frames: events, array and camera. -/
theorem generateCameraPath_frames (ext : Collaborators K) (camera_params : CameraParams K)
    (renderer_params : RenderParams K) (camera_params_array : Nat → CameraParams K)
    (camera_speed : K) (max_pix_data min_pix_data : pixelData K)
    (return_distances : Nat → pixelData K) (n : Nat) :
    sampleCount (generateCameraPath ext camera_params renderer_params camera_params_array
        (n : Int) camera_speed max_pix_data min_pix_data return_distances).events = n
    ∧ storedIndices (generateCameraPath ext camera_params renderer_params camera_params_array
        (n : Int) camera_speed max_pix_data min_pix_data return_distances).events = List.range n
    ∧ (∀ j : Nat, j < n →
        (generateCameraPath ext camera_params renderer_params camera_params_array
          (n : Int) camera_speed max_pix_data min_pix_data return_distances).camera_params_array j
        = (generateCameraPath ext camera_params renderer_params camera_params_array
          ((j : Int) + 1) camera_speed max_pix_data min_pix_data return_distances).camera_params)
    ∧ (∀ j : Nat, n ≤ j →
        (generateCameraPath ext camera_params renderer_params camera_params_array
          (n : Int) camera_speed max_pix_data min_pix_data return_distances).camera_params_array j
        = camera_params_array j) := by
  induction n with
  | zero =>
    refine ⟨?_, ?_, ?_, ?_⟩
    · simp [generateCameraPath, forLoop, plannerInit, sampleCount]
    · simp [generateCameraPath, forLoop, plannerInit, storedIndices]
    · intro j hj
      omega
    · intro j _
      simp [generateCameraPath, forLoop, plannerInit]
  | succ n ih =>
    obtain ⟨h1, h2, h3, h4⟩ := ih
    have hs := generateCameraPath_succ ext camera_params renderer_params camera_params_array
      camera_speed max_pix_data min_pix_data return_distances n
    have hcast : ((n + 1 : Nat) : Int) = (n : Int) + 1 := by push_cast; rfl
    rw [hcast, hs]
    refine ⟨?_, ?_, ?_, ?_⟩
    · simp only [planFrame]
      rw [sampleCount_append_frame, h1]
    · simp only [planFrame]
      rw [storedIndices_append_frame, h2, List.range_succ]
    · intro j hj
      by_cases hjn : j = n
      · subst hjn
        rw [hs]
        simp [planFrame]
      · have hlt : j < n := by omega
        have := h3 j hlt
        simp only [planFrame]
        rw [Function.update_noteq hjn]
        exact this
    · intro j hj
      have hjn : j ≠ n := by omega
      simp only [planFrame]
      rw [Function.update_noteq hjn]
      exact h4 j (by omega)

end Frames

/-! ## The frame renderer -/

section Renderer

variable {K : Type} [LinearOrderedField K] [FloorRing K]

theorem checkInt_of_range (x : Int) (h0 : 0 ≤ x) (h1 : x < 2147483648) :
    checkInt x = some x := by
  unfold checkInt
  rw [if_pos ⟨by omega, by omega⟩]

theorem pixel_index_lt (w h i j : Int) (hi1 : i < w) (hj1 : j < h)
    (hw : 0 ≤ w) : j * w + i < h * w := by
  have h1 : (j + 1) * w ≤ h * w := mul_le_mul_of_nonneg_right (by omega) hw
  have h2 : (j + 1) * w = j * w + w := by ring
  omega

theorem pixel_index_inj (w i j i' j' : Int) (hi0 : 0 ≤ i) (hi1 : i < w) (hi0' : 0 ≤ i')
    (hi1' : i' < w) (h : j' * w + i' = j * w + i) : i' = i ∧ j' = j := by
  have hw : 0 ≤ w := by omega
  rcases lt_trichotomy j' j with hlt | heq | hgt
  · have h1 : (j' + 1) * w ≤ j * w := mul_le_mul_of_nonneg_right (by omega) hw
    have h2 : (j' + 1) * w = j' * w + w := by ring
    omega
  · subst heq
    exact ⟨by omega, rfl⟩
  · have h1 : (j + 1) * w ≤ j' * w := mul_le_mul_of_nonneg_right (by omega) hw
    have h2 : (j + 1) * w = j * w + w := by ring
    omega

/-- Within the range of `int` the offset of a pixel of the image and the two offsets
after it are defined. -/
theorem pixelOffset_eq (w h i j : Int) (hi0 : 0 ≤ i) (hi1 : i < w) (hj0 : 0 ≤ j) (hj1 : j < h)
    (hsize : w * h * 3 < 2147483648) :
    pixelOffset w i j = some (3 * (j * w + i))
    ∧ checkInt (3 * (j * w + i) + 1) = some (3 * (j * w + i) + 1)
    ∧ checkInt (3 * (j * w + i) + 2) = some (3 * (j * w + i) + 2) := by
  have hw : 0 ≤ w := by omega
  have hlt := pixel_index_lt w h i j hi1 hj1 hw
  have hjw : 0 ≤ j * w := mul_nonneg hj0 hw
  have hcomm : w * h = h * w := mul_comm w h
  refine ⟨?_, checkInt_of_range _ (by omega) (by omega),
    checkInt_of_range _ (by omega) (by omega)⟩
  unfold pixelOffset
  rw [checkInt_of_range (j * w) hjw (by omega), Option.some_bind,
    checkInt_of_range (j * w + i) (by omega) (by omega), Option.some_bind,
    checkInt_of_range ((j * w + i) * 3) (by omega) (by omega), mul_comm]

/-- On `[0,255]` the cast is defined and gives the clamped value. -/
theorem toUChar_of_range (v : K) (h0 : 0 ≤ v) (h1 : v ≤ 255) :
    toUChar v = some (clampedByte v) := by
  have hf0 : 0 ≤ ⌊v⌋ := Int.floor_nonneg.2 h0
  have hf1 : ⌊v⌋ ≤ 255 := by
    have h := Int.floor_mono h1
    simpa using h
  unfold toUChar clampedByte
  simp only
  rw [if_pos h0, if_pos ⟨hf0, hf1⟩, min_eq_right h1, max_eq_right h0]

omit [FloorRing K] in
/-- The rounded product of a component in `[0,1]` and 255 lies in `[0,255]`. -/
theorem fl_range (fl : K → K) (hfl : roundsToDouble fl) (c : K) (h0 : 0 ≤ c) (h1 : c ≤ 1) :
    0 ≤ fl (c * 255) ∧ fl (c * 255) ≤ 255 := by
  obtain ⟨hm, hz, ht⟩ := hfl
  have a0 : (0 : K) ≤ c * 255 := mul_nonneg h0 (by norm_num)
  have a1 : c * 255 ≤ 255 := by
    have := mul_le_mul_of_nonneg_right h1 (show (0 : K) ≤ 255 by norm_num)
    simpa using this
  constructor
  · have := hm a0
    rw [hz] at this
    exact this
  · exact le_trans (hm a1) (le_of_eq ht)

omit [FloorRing K] in
theorem pixelColour_eq_colourFrom (ext : Collaborators K) (camera_params : CameraParams K)
    (renderer_params : RenderParams K) (i j : Int) :
    colourFrom ext camera_params renderer_params (ext.UnProject i j camera_params)
      = pixelColour ext camera_params renderer_params i j := rfl

/-- Both steps of a pixel of the image, one after the other, are defined. -/
theorem pixelStep_pair (ext : Collaborators K) (fl : K → K) (camera_params : CameraParams K)
    (renderer_params : RenderParams K) (i j : Int) (st : RenderState K)
    (hi0 : 0 ≤ i) (hi1 : i < renderer_params.width) (hj0 : 0 ≤ j)
    (hj1 : j < renderer_params.height)
    (hsize : renderer_params.width * renderer_params.height * 3 < 2147483648)
    (hcol : colourContract ext camera_params renderer_params) (hfl : roundsToDouble fl) :
    (((some st).bind fun st =>
        pixelStep ext fl camera_params renderer_params st (PixelStep.project i j)).bind fun st =>
        pixelStep ext fl camera_params renderer_params st (PixelStep.store i j))
      = some (storedPixel ext fl camera_params renderer_params i j st) := by
  obtain ⟨hk, hk1, hk2⟩ := pixelOffset_eq renderer_params.width renderer_params.height i j
    hi0 hi1 hj0 hj1 hsize
  have hc := hcol i j ⟨hi0, hi1, hj0, hj1⟩
  obtain ⟨⟨x0, x1⟩, ⟨y0, y1⟩, ⟨z0, z1⟩⟩ := hc
  have hx := toUChar_of_range _ (fl_range fl hfl _ x0 x1).1 (fl_range fl hfl _ x0 x1).2
  have hy := toUChar_of_range _ (fl_range fl hfl _ y0 y1).1 (fl_range fl hfl _ y0 y1).2
  have hz := toUChar_of_range _ (fl_range fl hfl _ z0 z1).1 (fl_range fl hfl _ z0 z1).2
  simp only [pixelStep, Option.some_bind, pixelColour_eq_colourFrom, hk, hk1, hk2, hx, hy, hz]
  rfl

theorem storedPixel_step (ext : Collaborators K) (fl : K → K) (camera_params : CameraParams K)
    (renderer_params : RenderParams K) (image : Int → Nat) (i j : Int) (st : RenderState K)
    (hi0 : 0 ≤ i) (hi1 : i < renderer_params.width) (hj0 : 0 ≤ j)
    (hst : pixelsDone ext fl camera_params renderer_params image
      (j * renderer_params.width + i) st) :
    pixelsDone ext fl camera_params renderer_params image (j * renderer_params.width + i + 1)
      (storedPixel ext fl camera_params renderer_params i j st) := by
  obtain ⟨hc, ho, hp⟩ := hst
  have hw : 0 ≤ renderer_params.width := by omega
  have hm0 : 0 ≤ j * renderer_params.width + i := by
    have := mul_nonneg hj0 hw
    omega
  generalize hM : j * renderer_params.width + i = M at *
  refine ⟨?_, ?_, ?_⟩
  · intro n
    simp only [storedPixel, hM, List.count_append, hc n, List.count_cons, List.count_nil]
    by_cases h1 : 0 ≤ n ∧ n < 3 * M
    · have e0 : ¬ (3 * M = n) := by omega
      have e1 : ¬ (3 * M + 1 = n) := by omega
      have e2 : ¬ (3 * M + 2 = n) := by omega
      have h2 : 0 ≤ n ∧ n < 3 * (M + 1) := by omega
      simp [h1, h2, e0, e1, e2]
    · by_cases h2 : 0 ≤ n ∧ n < 3 * (M + 1)
      · have : n = 3 * M ∨ n = 3 * M + 1 ∨ n = 3 * M + 2 := by omega
        rcases this with e | e | e
        · subst e
          have e1 : ¬ (3 * M + 1 = 3 * M) := by omega
          have e2 : ¬ (3 * M + 2 = 3 * M) := by omega
          simp [h1, h2, e1, e2]
        · subst e
          have e1 : ¬ (3 * M = 3 * M + 1) := by omega
          have e2 : ¬ (3 * M + 2 = 3 * M + 1) := by omega
          simp [h1, h2, e1, e2]
        · subst e
          have e1 : ¬ (3 * M = 3 * M + 2) := by omega
          have e2 : ¬ (3 * M + 1 = 3 * M + 2) := by omega
          simp [h1, h2, e1, e2]
      · have e0 : ¬ (3 * M = n) := by omega
        have e1 : ¬ (3 * M + 1 = n) := by omega
        have e2 : ¬ (3 * M + 2 = n) := by omega
        simp [h1, h2, e0, e1, e2]
  · intro n hn
    have e0 : n ≠ 3 * M := by omega
    have e1 : n ≠ 3 * M + 1 := by omega
    have e2 : n ≠ 3 * M + 2 := by omega
    simp only [storedPixel, hM]
    rw [Function.update_noteq e0, Function.update_noteq e1, Function.update_noteq e2]
    exact ho n (by omega)
  · intro i' j' hi0' hi1' hj0' hlt
    have hjw : 0 ≤ j' * renderer_params.width := mul_nonneg hj0' hw
    by_cases hold : j' * renderer_params.width + i' < M
    · have hprev := hp i' j' hi0' hi1' hj0' hold
      simp only [storedPixel, hM]
      refine ⟨?_, ?_, ?_⟩
      · rw [Function.update_noteq (by omega), Function.update_noteq (by omega),
          Function.update_noteq (by omega)]
        exact hprev.1
      · rw [Function.update_noteq (by omega), Function.update_noteq (by omega),
          Function.update_noteq (by omega)]
        exact hprev.2.1
      · rw [Function.update_noteq (by omega), Function.update_noteq (by omega),
          Function.update_noteq (by omega)]
        exact hprev.2.2
    · have heq : j' * renderer_params.width + i' = j * renderer_params.width + i := by omega
      obtain ⟨rfl, rfl⟩ := pixel_index_inj renderer_params.width i j i' j' hi0 hi1 hi0' hi1' heq
      rw [hM]
      simp only [storedPixel, hM]
      refine ⟨?_, ?_, ?_⟩
      · rw [Function.update_same]
      · rw [Function.update_noteq (by omega), Function.update_same]
      · rw [Function.update_noteq (by omega), Function.update_noteq (by omega),
          Function.update_same]

theorem forLoop_count_int {σ : Type} (n : Int) (hn : 0 ≤ n) (body : Nat → σ → σ)
    (I : Int → σ → Prop) (s : σ) (h0 : I 0 s)
    (hstep : ∀ (k : Nat) (st : σ), (k : Int) < n → I k st → I ((k : Int) + 1) (body k st)) :
    I n (forLoop n body s) := by
  obtain ⟨m, rfl⟩ := Int.eq_ofNat_of_zero_le hn
  refine forLoop_count m body (fun k st => I (k : Int) st) s (by simpa using h0) ?_
  intro k st hk hI
  have := hstep k st (by omega) hI
  simpa using this

theorem foldl_bind_nested {α β σ : Type} (f : σ → β → σ) (g : α → List β) (l : List α)
    (s : σ) : (l.flatMap g).foldl f s = l.foldl (fun s a => (g a).foldl f s) s := by
  induction l generalizing s with
  | nil => rfl
  | cons a l ih => simp [List.foldl_append, ih]

/-- The one-thread execution is the pair of nested loops of lines 86-110. -/
theorem runPixelSteps_oneThread (ext : Collaborators K) (fl : K → K)
    (camera_params : CameraParams K) (renderer_params : RenderParams K) (width height : Int)
    (s : Option (RenderState K)) :
    runPixelSteps ext fl camera_params renderer_params (oneThreadPixels width height) s
      = forLoop height (fun j s =>
          forLoop width (fun i s =>
            (s.bind fun st =>
              pixelStep ext fl camera_params renderer_params st
                (PixelStep.project (i : Int) (j : Int))).bind fun st =>
              pixelStep ext fl camera_params renderer_params st
                (PixelStep.store (i : Int) (j : Int))) s) s := by
  unfold runPixelSteps oneThreadPixels forLoop
  simp only [foldl_bind_nested, List.foldl_cons, List.foldl_nil]

theorem renderFractalTraced_done (ext : Collaborators K) (fl : K → K)
    (camera_params : CameraParams K) (renderer_params : RenderParams K) (farPoint : Vec3 K)
    (image : Int → Nat)
    (hw : 0 ≤ renderer_params.width) (hh : 0 ≤ renderer_params.height)
    (hsize : renderer_params.width * renderer_params.height * 3 < 2147483648)
    (hcol : colourContract ext camera_params renderer_params) (hfl : roundsToDouble fl) :
    ∃ st, renderFractalTraced ext fl camera_params renderer_params
        (oneThreadPixels renderer_params.width renderer_params.height) farPoint image = some st
      ∧ pixelsDone ext fl camera_params renderer_params image
        (renderer_params.height * renderer_params.width) st := by
  unfold renderFractalTraced
  rw [runPixelSteps_oneThread]
  refine forLoop_count_int renderer_params.height hh _
    (fun j s => ∃ st, s = some st ∧ pixelsDone ext fl camera_params renderer_params image
      (j * renderer_params.width) st) _ ?_ ?_
  · refine ⟨_, rfl, ?_, ?_, ?_⟩
    · intro n
      have h : ¬ (0 ≤ n ∧ n < 3 * (0 * renderer_params.width)) := by omega
      show List.count n [] = _
      rw [if_neg h]
      rfl
    · intro n _
      rfl
    · intro i j hi0 hi1 hj0 hlt
      have hjw : 0 ≤ j * renderer_params.width := mul_nonneg hj0 hw
      omega
  · intro j s hj hs
    have hrow := forLoop_count_int renderer_params.width hw
      (fun i s =>
        (s.bind fun st =>
          pixelStep ext fl camera_params renderer_params st
            (PixelStep.project (i : Int) (j : Int))).bind fun st =>
          pixelStep ext fl camera_params renderer_params st
            (PixelStep.store (i : Int) (j : Int)))
      (fun i s => ∃ st, s = some st ∧ pixelsDone ext fl camera_params renderer_params image
        ((j : Int) * renderer_params.width + i) st) s (by simpa using hs) ?_
    · have e : ((j : Int) + 1) * renderer_params.width
          = (j : Int) * renderer_params.width + renderer_params.width := by ring
      rw [e]
      exact hrow
    · rintro i s' hi ⟨st', rfl, hst'⟩
      refine ⟨_, pixelStep_pair ext fl camera_params renderer_params (i : Int) (j : Int) st'
        (by omega) hi (by omega) hj hsize hcol hfl, ?_⟩
      have := storedPixel_step ext fl camera_params renderer_params image (i : Int) (j : Int) st'
        (by omega) hi (by omega) hst'
      rw [← add_assoc]
      exact this

theorem runPixelSteps_none (ext : Collaborators K) (fl : K → K)
    (camera_params : CameraParams K) (renderer_params : RenderParams K)
    (steps : List PixelStep) :
    runPixelSteps ext fl camera_params renderer_params steps none = none := by
  unfold runPixelSteps
  induction steps with
  | nil => rfl
  | cons a l ih => simpa using ih

/-- An execution that contains the store of a pixel whose offset is undefined has no
defined result. -/
theorem runPixelSteps_undefined (ext : Collaborators K) (fl : K → K)
    (camera_params : CameraParams K) (renderer_params : RenderParams K) (i j : Int)
    (steps : List PixelStep) (s : Option (RenderState K))
    (hmem : PixelStep.store i j ∈ steps) (hoff : pixelOffset renderer_params.width i j = none) :
    runPixelSteps ext fl camera_params renderer_params steps s = none := by
  obtain ⟨l1, l2, rfl⟩ := List.append_of_mem hmem
  have hrest := runPixelSteps_none ext fl camera_params renderer_params l2
  unfold runPixelSteps at hrest ⊢
  rw [List.foldl_append, List.foldl_cons]
  have hstep : ∀ x : Option (RenderState K),
      (x.bind fun st =>
        pixelStep ext fl camera_params renderer_params st (PixelStep.store i j)) = none := by
    intro x
    cases x with
    | none => rfl
    | some st => simp [pixelStep, hoff]
  rw [hstep]
  exact hrest

theorem store_mem_oneThreadPixels (width height : Int) (i j : Nat) (hi : (i : Int) < width)
    (hj : (j : Int) < height) :
    PixelStep.store (i : Int) (j : Int) ∈ oneThreadPixels width height := by
  unfold oneThreadPixels
  simp only [List.mem_flatMap, List.mem_range, List.mem_cons, List.mem_singleton]
  exact ⟨j, by omega, i, by omega, Or.inr (Or.inl rfl)⟩

theorem roundEighth_intCast (n : Int) : roundEighth (n : ℚ) = n := by
  unfold roundEighth
  have h : ⌊(n : ℚ) * 8 + 1 / 2⌋ = n * 8 := by
    rw [Int.floor_eq_iff]
    push_cast
    constructor <;> linarith
  rw [h]
  push_cast
  field_simp

/-- Rounding to eighths is monotone and exact on the integers 0 and 255. -/
theorem roundEighth_rounds : roundsToDouble roundEighth := by
  refine ⟨?_, ?_, ?_⟩
  · intro a b hab
    unfold roundEighth
    have h : ⌊a * 8 + 1 / 2⌋ ≤ ⌊b * 8 + 1 / 2⌋ := Int.floor_mono (by linarith)
    have h' : ((⌊a * 8 + 1 / 2⌋ : Int) : ℚ) ≤ ((⌊b * 8 + 1 / 2⌋ : Int) : ℚ) := by
      exact_mod_cast h
    exact div_le_div_of_nonneg_right h' (by norm_num)
  · simpa using roundEighth_intCast 0
  · simpa using roundEighth_intCast 255

theorem toUChar_natCast (n : Nat) (h : n ≤ 255) : toUChar ((n : Nat) : K) = some n := by
  unfold toUChar
  simp only [Nat.cast_nonneg, if_true, Int.floor_natCast]
  have hn : True ∧ (n : Int) ≤ 255 := ⟨trivial, by omega⟩
  rw [if_pos hn]
  rfl

/-- The colours of `twoRayScene` are `(3/5, 4/5, 0)` and `(4/5, 3/5, 0)`. -/
theorem twoRayScene_colours : colourContract twoRayScene originCamera (imageParams 1 2) := by
  rintro i j ⟨hi0, hi1, hj0, hj1⟩
  have hi : i = 0 := by
    have : i < 1 := hi1
    omega
  have hj : j = 0 ∨ j = 1 := by
    have : j < 2 := hj1
    omega
  subst hi
  rcases hj with rfl | rfl <;>
    norm_num [pixelColour, castRay, rayDirection, twoRayScene, originCamera,
      SubtractDoubleDouble, Vec3.Normalize, sqrtQ_25]

end Renderer

/-! ## Claims on the statistics sampler -/

section SamplerClaims

variable {K : Type} [LinearOrderedField K]

/-- C1. Every pixel of the image has its ray-march distance between the distance
of the returned minimum and the distance of the returned maximum. -/
theorem renderFractal_for_path_bounds (ext : Collaborators K) (camera_params : CameraParams K)
    (renderer_params : RenderParams K) (max_pix_data min_pix_data : pixelData K)
    (return_distances : Nat → pixelData K) (i j : Int)
    (hpix : inImage renderer_params.width renderer_params.height i j) :
    (renderFractal_for_path ext camera_params renderer_params max_pix_data min_pix_data
        return_distances).min_pix_data.distance
      ≤ (castRay ext camera_params renderer_params i j).distance
    ∧ (castRay ext camera_params renderer_params i j).distance
      ≤ (renderFractal_for_path ext camera_params renderer_params max_pix_data min_pix_data
          return_distances).max_pix_data.distance :=
  sampleAllPixels_bounds ext camera_params renderer_params max_pix_data min_pix_data i j hpix

theorem renderFractal_for_path_bounds_witness :
    (renderFractal_for_path (constantScene ⟨1 / 2, ⟨1, 2, 3⟩, false⟩) originCamera
        (imageParams 2 2) stalePixel stalePixel (fun _ => stalePixel)).min_pix_data.distance
      ≤ (castRay (constantScene ⟨1 / 2, ⟨1, 2, 3⟩, false⟩) originCamera
          (imageParams 2 2) 1 1).distance
    ∧ (castRay (constantScene ⟨1 / 2, ⟨1, 2, 3⟩, false⟩) originCamera
          (imageParams 2 2) 1 1).distance
      ≤ (renderFractal_for_path (constantScene ⟨1 / 2, ⟨1, 2, 3⟩, false⟩) originCamera
          (imageParams 2 2) stalePixel stalePixel (fun _ => stalePixel)).max_pix_data.distance :=
  renderFractal_for_path_bounds (constantScene ⟨1 / 2, ⟨1, 2, 3⟩, false⟩) originCamera
    (imageParams 2 2) stalePixel stalePixel (fun _ => stalePixel) 1 1
    (by unfold inImage; decide)

/-- C2, as amended. When some pixel of the image has a distance above 0, the returned
maximum is the complete `pixelData` of a pixel of the image whose distance is the
largest; when some pixel has a distance below 100, the returned minimum is the
complete `pixelData` of a pixel of the image whose distance is the smallest. -/
theorem renderFractal_for_path_extremes (ext : Collaborators K) (camera_params : CameraParams K)
    (renderer_params : RenderParams K) (max_pix_data min_pix_data : pixelData K)
    (return_distances : Nat → pixelData K) :
    ((∃ i j, inImage renderer_params.width renderer_params.height i j ∧
        0 < (castRay ext camera_params renderer_params i j).distance) →
      ∃ i j, inImage renderer_params.width renderer_params.height i j ∧
        (renderFractal_for_path ext camera_params renderer_params max_pix_data min_pix_data
          return_distances).max_pix_data = castRay ext camera_params renderer_params i j ∧
        ∀ i' j', inImage renderer_params.width renderer_params.height i' j' →
          (castRay ext camera_params renderer_params i' j').distance
            ≤ (castRay ext camera_params renderer_params i j).distance)
    ∧ ((∃ i j, inImage renderer_params.width renderer_params.height i j ∧
        (castRay ext camera_params renderer_params i j).distance < 100) →
      ∃ i j, inImage renderer_params.width renderer_params.height i j ∧
        (renderFractal_for_path ext camera_params renderer_params max_pix_data min_pix_data
          return_distances).min_pix_data = castRay ext camera_params renderer_params i j ∧
        ∀ i' j', inImage renderer_params.width renderer_params.height i' j' →
          (castRay ext camera_params renderer_params i j).distance
            ≤ (castRay ext camera_params renderer_params i' j').distance) := by
  have hb := sampleAllPixels_bounds ext camera_params renderer_params max_pix_data min_pix_data
  constructor
  · rintro ⟨i, j, hpix, hpos⟩
    rcases sampleAllPixels_max_cases ext camera_params renderer_params max_pix_data
      min_pix_data with hs | ⟨a, b, hab, hs⟩
    · have h1 := (hb i j hpix).2
      rw [hs] at h1
      exact absurd (lt_of_lt_of_le hpos h1) (lt_irrefl _)
    · refine ⟨a, b, hab, hs, ?_⟩
      intro i' j' hpix'
      have h1 := (hb i' j' hpix').2
      rw [hs] at h1
      exact h1
  · rintro ⟨i, j, hpix, hlt⟩
    rcases sampleAllPixels_min_cases ext camera_params renderer_params max_pix_data
      min_pix_data with hs | ⟨a, b, hab, hs⟩
    · have h1 := (hb i j hpix).1
      rw [hs] at h1
      exact absurd (lt_of_le_of_lt h1 hlt) (lt_irrefl _)
    · refine ⟨a, b, hab, hs, ?_⟩
      intro i' j' hpix'
      have h1 := (hb i' j' hpix').1
      rw [hs] at h1
      exact h1

theorem renderFractal_for_path_extremes_witness :
    (∃ i j, inImage 2 2 i j ∧
      (renderFractal_for_path (constantScene ⟨1 / 2, ⟨1, 2, 3⟩, false⟩) originCamera
        (imageParams 2 2) stalePixel stalePixel (fun _ => stalePixel)).max_pix_data
        = castRay (constantScene ⟨1 / 2, ⟨1, 2, 3⟩, false⟩) originCamera (imageParams 2 2) i j ∧
      ∀ i' j', inImage 2 2 i' j' →
        (castRay (constantScene ⟨1 / 2, ⟨1, 2, 3⟩, false⟩) originCamera
            (imageParams 2 2) i' j').distance
          ≤ (castRay (constantScene ⟨1 / 2, ⟨1, 2, 3⟩, false⟩) originCamera
            (imageParams 2 2) i j).distance)
    ∧ (∃ i j, inImage 2 2 i j ∧
      (renderFractal_for_path (constantScene ⟨1 / 2, ⟨1, 2, 3⟩, false⟩) originCamera
        (imageParams 2 2) stalePixel stalePixel (fun _ => stalePixel)).min_pix_data
        = castRay (constantScene ⟨1 / 2, ⟨1, 2, 3⟩, false⟩) originCamera (imageParams 2 2) i j ∧
      ∀ i' j', inImage 2 2 i' j' →
        (castRay (constantScene ⟨1 / 2, ⟨1, 2, 3⟩, false⟩) originCamera
            (imageParams 2 2) i j).distance
          ≤ (castRay (constantScene ⟨1 / 2, ⟨1, 2, 3⟩, false⟩) originCamera
            (imageParams 2 2) i' j').distance) :=
  ⟨(renderFractal_for_path_extremes (constantScene ⟨1 / 2, ⟨1, 2, 3⟩, false⟩) originCamera
      (imageParams 2 2) stalePixel stalePixel (fun _ => stalePixel)).1
      ⟨0, 0, by unfold inImage; decide, by norm_num [castRay, constantScene]⟩,
   (renderFractal_for_path_extremes (constantScene ⟨1 / 2, ⟨1, 2, 3⟩, false⟩) originCamera
      (imageParams 2 2) stalePixel stalePixel (fun _ => stalePixel)).2
      ⟨0, 0, by unfold inImage; decide, by norm_num [castRay, constantScene]⟩⟩

/-- C2, counterexample. A 1x1 image whose only pixel has distance 0 leaves the
maximum at the sentinel with the caller's hit point and flag, and a 1x1 image whose
only pixel has distance 150 leaves the minimum at the sentinel: neither is the
`pixelData` of a sampled pixel. -/
theorem renderFractal_for_path_sentinel_kept :
    ((renderFractal_for_path (constantScene ⟨0, ⟨1, 2, 3⟩, false⟩) originCamera
        (imageParams 1 1) stalePixel stalePixel (fun _ => stalePixel)).max_pix_data
      = ⟨0, ⟨9, 9, 9⟩, true⟩
    ∧ ¬ ∃ i j, inImage 1 1 i j ∧
      (renderFractal_for_path (constantScene ⟨0, ⟨1, 2, 3⟩, false⟩) originCamera
        (imageParams 1 1) stalePixel stalePixel (fun _ => stalePixel)).max_pix_data
        = castRay (constantScene ⟨0, ⟨1, 2, 3⟩, false⟩) originCamera (imageParams 1 1) i j)
    ∧ ((renderFractal_for_path (constantScene ⟨150, ⟨1, 2, 3⟩, false⟩) originCamera
        (imageParams 1 1) stalePixel stalePixel (fun _ => stalePixel)).min_pix_data
      = ⟨100, ⟨9, 9, 9⟩, true⟩
    ∧ ¬ ∃ i j, inImage 1 1 i j ∧
      (renderFractal_for_path (constantScene ⟨150, ⟨1, 2, 3⟩, false⟩) originCamera
        (imageParams 1 1) stalePixel stalePixel (fun _ => stalePixel)).min_pix_data
        = castRay (constantScene ⟨150, ⟨1, 2, 3⟩, false⟩) originCamera (imageParams 1 1) i j) := by
  have hmax : (renderFractal_for_path (constantScene ⟨0, ⟨1, 2, 3⟩, false⟩) originCamera
        (imageParams 1 1) stalePixel stalePixel (fun _ => stalePixel)).max_pix_data
      = ⟨0, ⟨9, 9, 9⟩, true⟩ := by
    simp [renderFractal_for_path, sampleAllPixels, forLoop, imageParams, updateMaxMin, castRay,
      constantScene, stalePixel, List.range_succ]
  have hmin : (renderFractal_for_path (constantScene ⟨150, ⟨1, 2, 3⟩, false⟩) originCamera
        (imageParams 1 1) stalePixel stalePixel (fun _ => stalePixel)).min_pix_data
      = ⟨100, ⟨9, 9, 9⟩, true⟩ := by
    simp [renderFractal_for_path, sampleAllPixels, forLoop, imageParams, updateMaxMin, castRay,
      constantScene, stalePixel, List.range_succ]
    norm_num
  refine ⟨⟨hmax, ?_⟩, ⟨hmin, ?_⟩⟩
  · rintro ⟨i, j, -, h⟩
    rw [hmax] at h
    simp [castRay, constantScene] at h
  · rintro ⟨i, j, -, h⟩
    rw [hmin] at h
    simp [castRay, constantScene] at h

/-- C4, as amended. The probe coordinates depend on width and height only: slot 0 is
`(width/2, height/2)`, slots 1 and 2 are `width/4` and `3*(width/4)` on the centre
row, slots 3 and 4 are `3*(height/4)` and `height/4` on the centre column (integer
division); in the one-thread execution of the probe loop, whatever the shared
`farPoint` held before, each of the five slots of `return_distances` receives
distance, hit and escaped of the ray march through its coordinate; for a non-negative
size with remainder 0 or 1 modulo 4 the quarter positions are half minus and half plus
a quarter; for 25x25 the coordinates are (12,12), (6,12), (18,12), (12,18), (12,6). -/
theorem probe_coordinates (ext : Collaborators K) (camera_params : CameraParams K)
    (renderer_params : RenderParams K) (max_pix_data min_pix_data : pixelData K)
    (return_distances : Nat → pixelData K) (farPoint : Vec3 K) (width height : Int) :
    (probeCoordinate width height 0 = (Int.tdiv width 2, Int.tdiv height 2)
      ∧ probeCoordinate width height 1 = (Int.tdiv width 4, Int.tdiv height 2)
      ∧ probeCoordinate width height 2 = (3 * Int.tdiv width 4, Int.tdiv height 2)
      ∧ probeCoordinate width height 3 = (Int.tdiv width 2, 3 * Int.tdiv height 4)
      ∧ probeCoordinate width height 4 = (Int.tdiv width 2, Int.tdiv height 4))
    ∧ ((renderFractal_for_path ext camera_params renderer_params max_pix_data min_pix_data
            return_distances).return_distances
          = (runProbeSteps ext camera_params renderer_params oneThreadProbes
              { farPoint := farPoint, return_distances := return_distances }).return_distances
      ∧ ∀ s : Nat, s < 5 →
        ((runProbeSteps ext camera_params renderer_params oneThreadProbes
            { farPoint := farPoint, return_distances := return_distances }).return_distances
            s).distance
          = (castRay ext camera_params renderer_params
              (probeCoordinate renderer_params.width renderer_params.height s).1
              (probeCoordinate renderer_params.width renderer_params.height s).2).distance
        ∧ ((runProbeSteps ext camera_params renderer_params oneThreadProbes
            { farPoint := farPoint, return_distances := return_distances }).return_distances
            s).hit
          = (castRay ext camera_params renderer_params
              (probeCoordinate renderer_params.width renderer_params.height s).1
              (probeCoordinate renderer_params.width renderer_params.height s).2).hit
        ∧ ((runProbeSteps ext camera_params renderer_params oneThreadProbes
            { farPoint := farPoint, return_distances := return_distances }).return_distances
            s).escaped
          = (castRay ext camera_params renderer_params
              (probeCoordinate renderer_params.width renderer_params.height s).1
              (probeCoordinate renderer_params.width renderer_params.height s).2).escaped)
    ∧ (0 ≤ width → (width % 4 = 0 ∨ width % 4 = 1) →
        Int.tdiv width 4 = Int.tdiv width 2 - Int.tdiv width 4
        ∧ 3 * Int.tdiv width 4 = Int.tdiv width 2 + Int.tdiv width 4)
    ∧ (0 ≤ height → (height % 4 = 0 ∨ height % 4 = 1) →
        Int.tdiv height 4 = Int.tdiv height 2 - Int.tdiv height 4
        ∧ 3 * Int.tdiv height 4 = Int.tdiv height 2 + Int.tdiv height 4)
    ∧ (probeCoordinate 25 25 0 = (12, 12) ∧ probeCoordinate 25 25 1 = (6, 12)
      ∧ probeCoordinate 25 25 2 = (18, 12) ∧ probeCoordinate 25 25 3 = (12, 18)
      ∧ probeCoordinate 25 25 4 = (12, 6)) := by
  refine ⟨by simp [probeCoordinate], ⟨?_, ?_⟩, ?_, ?_, by decide⟩
  · exact (runProbeSteps_oneThread ext camera_params renderer_params max_pix_data
      min_pix_data farPoint return_distances).symm
  · intro s hs
    rw [runProbeSteps_oneThread ext camera_params renderer_params max_pix_data
      min_pix_data farPoint return_distances, probe_slots, if_pos hs]
    exact ⟨rfl, rfl, rfl⟩
  · intro h0 h
    rw [Int.tdiv_eq_ediv h0 (by norm_num), Int.tdiv_eq_ediv h0 (by norm_num)]
    omega
  · intro h0 h
    rw [Int.tdiv_eq_ediv h0 (by norm_num), Int.tdiv_eq_ediv h0 (by norm_num)]
    omega

theorem probe_coordinates_witness :
    Int.tdiv 25 4 = Int.tdiv 25 2 - Int.tdiv 25 4
    ∧ 3 * Int.tdiv 25 4 = Int.tdiv 25 2 + Int.tdiv 25 4 :=
  (probe_coordinates (constantScene stalePixel) originCamera (imageParams 25 25) stalePixel
    stalePixel (fun _ => stalePixel) ⟨0, 0, 0⟩ 25 25).2.2.1 (by decide) (by decide)

/-- C4, counterexample. For a 6x6 image slot 1 is at x = 1 and slot 2 at x = 3, the
centre column itself, where half minus and half plus a quarter are 2 and 4; slots 3
and 4 are at y = 3 and y = 1 where half plus and half minus a quarter are 4 and 2.
With two threads, when the thread of iteration 1 writes the shared `farPoint` between
line 203 and line 207 of iteration 0, slot 0 receives the march through the coordinate
of slot 1: for the 25x25 image its hit is `(4/5, 3/5, 0)`, the march through (6,12),
where the march through its own coordinate (12,12) hits `(3/5, 4/5, 0)`. -/
theorem probe_coordinates_six_and_shared_farPoint :
    ((probeCoordinate 6 6 1 = (1, 3) ∧ Int.tdiv 6 2 - Int.tdiv 6 4 = 2
        ∧ (probeCoordinate 6 6 1).1 ≠ Int.tdiv 6 2 - Int.tdiv 6 4)
      ∧ (probeCoordinate 6 6 2 = (3, 3) ∧ Int.tdiv 6 2 + Int.tdiv 6 4 = 4
        ∧ (probeCoordinate 6 6 2).1 ≠ Int.tdiv 6 2 + Int.tdiv 6 4)
      ∧ (probeCoordinate 6 6 3 = (3, 3)
        ∧ (probeCoordinate 6 6 3).2 ≠ Int.tdiv 6 2 + Int.tdiv 6 4)
      ∧ (probeCoordinate 6 6 4 = (3, 1)
        ∧ (probeCoordinate 6 6 4).2 ≠ Int.tdiv 6 2 - Int.tdiv 6 4))
    ∧ (((runProbeSteps twoRayScene originCamera (imageParams 25 25) twoThreadProbes
          { farPoint := ⟨0, 0, 0⟩, return_distances := fun _ => stalePixel }).return_distances
          0).hit = ⟨4 / 5, 3 / 5, 0⟩
      ∧ (castRay twoRayScene originCamera (imageParams 25 25)
          (probeCoordinate 25 25 1).1 (probeCoordinate 25 25 1).2).hit = ⟨4 / 5, 3 / 5, 0⟩
      ∧ (castRay twoRayScene originCamera (imageParams 25 25)
          (probeCoordinate 25 25 0).1 (probeCoordinate 25 25 0).2).hit = ⟨3 / 5, 4 / 5, 0⟩
      ∧ ((runProbeSteps twoRayScene originCamera (imageParams 25 25) twoThreadProbes
          { farPoint := ⟨0, 0, 0⟩, return_distances := fun _ => stalePixel }).return_distances
          0).hit
        ≠ (castRay twoRayScene originCamera (imageParams 25 25)
          (probeCoordinate 25 25 0).1 (probeCoordinate 25 25 0).2).hit) := by
  have h4 : Int.tdiv 25 4 = 6 := by decide
  have h2 : Int.tdiv 25 2 = 12 := by decide
  have hrace : ((runProbeSteps twoRayScene originCamera (imageParams 25 25) twoThreadProbes
        { farPoint := ⟨0, 0, 0⟩, return_distances := fun _ => stalePixel }).return_distances
        0).hit = ⟨4 / 5, 3 / 5, 0⟩ := by
    norm_num [runProbeSteps, twoThreadProbes, probeStep, marchFrom, twoRayScene, originCamera,
      imageParams, probeCoordinate, Function.update, SubtractDoubleDouble, Vec3.Normalize,
      sqrtQ_25, h2, h4]
  have hown : (castRay twoRayScene originCamera (imageParams 25 25)
        (probeCoordinate 25 25 0).1 (probeCoordinate 25 25 0).2).hit = ⟨3 / 5, 4 / 5, 0⟩ := by
    norm_num [castRay, rayDirection, twoRayScene, originCamera, imageParams, probeCoordinate,
      SubtractDoubleDouble, Vec3.Normalize, sqrtQ_25, h2, h4]
  have hother : (castRay twoRayScene originCamera (imageParams 25 25)
        (probeCoordinate 25 25 1).1 (probeCoordinate 25 25 1).2).hit = ⟨4 / 5, 3 / 5, 0⟩ := by
    norm_num [castRay, rayDirection, twoRayScene, originCamera, imageParams, probeCoordinate,
      SubtractDoubleDouble, Vec3.Normalize, sqrtQ_25, h2, h4]
  refine ⟨by decide, hrace, hother, hown, ?_⟩
  rw [hrace, hown]
  intro h
  have hx := congrArg Vec3.x h
  norm_num at hx

/-- C10, as amended. The sampler resets only the distance of its two outputs: when no
pixel of the image has a distance above 0 the returned maximum is the caller's
`pixelData` with distance 0, and when no pixel has a distance below 100 the returned
minimum is the caller's with distance 100. In a frame of the planner the caller's
values are the ones the previous frame left. A frame whose maximum stays at the
sentinel computes its candidate direction from the earlier hit point; when the
quotient of line 293 is a number, that is when the magnitude of the difference of
old and candidate direction is not 0 (for `0/0` the direction is not a number and
nothing is stated), the frame steers by that candidate and, distance 0 being below
0.0001, reverses the steered direction. A frame whose minimum stays at the sentinel
has bump factor 0: where the quotient of line 293 is a number the camera is
displaced along the steered direction only. -/
theorem renderFractal_for_path_keeps_stale_hit (ext : Collaborators K)
    (camera_params : CameraParams K) (renderer_params : RenderParams K)
    (max_pix_data min_pix_data : pixelData K) (return_distances : Nat → pixelData K)
    (camera_speed : K) (j : Nat) (s : PlannerState K) :
    ((∀ a b, inImage renderer_params.width renderer_params.height a b →
        ¬ (castRay ext camera_params renderer_params a b).distance > 0) →
      (renderFractal_for_path ext camera_params renderer_params max_pix_data min_pix_data
        return_distances).max_pix_data = { max_pix_data with distance := 0 })
    ∧ ((∀ a b, inImage renderer_params.width renderer_params.height a b →
        ¬ (castRay ext camera_params renderer_params a b).distance < 100) →
      (renderFractal_for_path ext camera_params renderer_params max_pix_data min_pix_data
        return_distances).min_pix_data = { min_pix_data with distance := 100 })
    ∧ ((∀ a b, inImage s.renderer_params.width s.renderer_params.height a b →
        ¬ (castRay ext (ext.init3D s.camera_params s.renderer_params)
            s.renderer_params a b).distance > 0) →
      (planFrame ext camera_speed j s).max_pix_data = { s.max_pix_data with distance := 0 }
      ∧ directionNew ext.sqrt (ext.init3D s.camera_params s.renderer_params)
            { s.max_pix_data with distance := 0 }
        = Vec3.Normalize ext.sqrt
            (s.max_pix_data.hit.sub (ext.init3D s.camera_params s.renderer_params).camPos)
      ∧ (dirErrorDefined
          (MAGNITUDE ext.sqrt (s.direction.sub
            (directionNew ext.sqrt (ext.init3D s.camera_params s.renderer_params)
              { s.max_pix_data with distance := 0 }))) (0 : K) →
        (planFrame ext camera_speed j s).direction
          = steer ext.sqrt (ext.init3D s.camera_params s.renderer_params)
              { s.max_pix_data with distance := 0 } s.direction
        ∧ (planFrame ext camera_speed j s).direction
          = (Vec3.Normalize ext.sqrt
              (blendDirection ext.sqrt (ext.init3D s.camera_params s.renderer_params)
                { s.max_pix_data with distance := 0 } s.direction)).scale (-1)))
    ∧ ((∀ a b, inImage s.renderer_params.width s.renderer_params.height a b →
        ¬ (castRay ext (ext.init3D s.camera_params s.renderer_params)
            s.renderer_params a b).distance < 100) →
      (planFrame ext camera_speed j s).min_pix_data = { s.min_pix_data with distance := 100 }
      ∧ bumpFactor (planFrame ext camera_speed j s).min_pix_data = 0
      ∧ (dirErrorDefined
          (MAGNITUDE ext.sqrt (s.direction.sub
            (directionNew ext.sqrt (ext.init3D s.camera_params s.renderer_params)
              (planFrame ext camera_speed j s).max_pix_data)))
          (planFrame ext camera_speed j s).max_pix_data.distance →
        (planFrame ext camera_speed j s).camera_params.camPos
          = (ext.init3D s.camera_params s.renderer_params).camPos.add
              ((planFrame ext camera_speed j s).direction.scale
                (camera_speed * (planFrame ext camera_speed j s).smooth_speed)))) := by
  refine ⟨?_, ?_, ?_, ?_⟩
  · intro h
    exact sampleAllPixels_max_sentinel ext camera_params renderer_params _ _ h
  · intro h
    exact sampleAllPixels_min_sentinel ext camera_params renderer_params _ _ h
  · intro h
    have hm := sampleAllPixels_max_sentinel ext (ext.init3D s.camera_params s.renderer_params)
      s.renderer_params s.max_pix_data s.min_pix_data h
    have hd : (planFrame ext camera_speed j s).direction
        = steer ext.sqrt (ext.init3D s.camera_params s.renderer_params)
            { s.max_pix_data with distance := 0 } s.direction := by
      simp only [planFrame, moveCamera, renderFractal_for_path, hm]
    refine ⟨hm, rfl, ?_⟩
    intro _
    refine ⟨hd, ?_⟩
    rw [hd]
    have hlt : (0 : K) < 0.0001 := by norm_num
    simp only [steer, if_pos hlt, Vec3.scale]
  · intro h
    have hm := sampleAllPixels_min_sentinel ext (ext.init3D s.camera_params s.renderer_params)
      s.renderer_params s.max_pix_data s.min_pix_data h
    have hm' : (planFrame ext camera_speed j s).min_pix_data
        = { s.min_pix_data with distance := 100 } := hm
    have hge : (0.001 : K) ≤ (planFrame ext camera_speed j s).min_pix_data.distance := by
      rw [hm']
      norm_num
    refine ⟨hm, ?_, ?_⟩
    · unfold bumpFactor
      rw [if_neg (not_lt.2 hge)]
    · intro _
      rw [planFrame_camera_params, planFrame_direction, planFrame_smooth_speed]
      exact moveCamera_camPos_no_bump _ _ _ _ hge

theorem renderFractal_for_path_keeps_stale_hit_witness :
    (renderFractal_for_path (constantScene ⟨0, ⟨1, 2, 3⟩, false⟩) originCamera
        (imageParams 2 2) stalePixel stalePixel (fun _ => stalePixel)).max_pix_data
      = { stalePixel with distance := 0 }
    ∧ (renderFractal_for_path (constantScene ⟨150, ⟨1, 2, 3⟩, false⟩) originCamera
        (imageParams 2 2) stalePixel stalePixel (fun _ => stalePixel)).min_pix_data
      = { stalePixel with distance := 100 } :=
  ⟨(renderFractal_for_path_keeps_stale_hit (constantScene ⟨0, ⟨1, 2, 3⟩, false⟩) originCamera
      (imageParams 2 2) stalePixel stalePixel (fun _ => stalePixel) 1 0
      (plannerInit originCamera (imageParams 2 2) (fun _ => originCamera) stalePixel stalePixel
        (fun _ => stalePixel))).1
      (by intro a b _; simp [castRay, constantScene]),
   (renderFractal_for_path_keeps_stale_hit (constantScene ⟨150, ⟨1, 2, 3⟩, false⟩) originCamera
      (imageParams 2 2) stalePixel stalePixel (fun _ => stalePixel) 1 0
      (plannerInit originCamera (imageParams 2 2) (fun _ => originCamera) stalePixel stalePixel
        (fun _ => stalePixel))).2.1
      (by intro a b _; norm_num [castRay, constantScene])⟩

/-- C10, counterexample. In a first frame whose pixels all have distance 150 the
minimum keeps the sentinel 100 with the left-over hit point `(9,9,9)`; the bump factor
is 0 and the camera moves from the origin to `(1,0,0)`, which is its direction
`(1,0,0)` times the move rate 1: it is not bumped away from the left-over hit point. -/
theorem planFrame_sentinel_minimum_no_bump :
    (planFrame (constantScene ⟨150, ⟨3, 0, 0⟩, false⟩) 1 0
        (plannerInit originCamera (imageParams 640 480) (fun _ => originCamera) stalePixel
          stalePixel (fun _ => stalePixel))).min_pix_data = ⟨100, ⟨9, 9, 9⟩, true⟩
    ∧ bumpFactor (planFrame (constantScene ⟨150, ⟨3, 0, 0⟩, false⟩) 1 0
        (plannerInit originCamera (imageParams 640 480) (fun _ => originCamera) stalePixel
          stalePixel (fun _ => stalePixel))).min_pix_data = 0
    ∧ (planFrame (constantScene ⟨150, ⟨3, 0, 0⟩, false⟩) 1 0
        (plannerInit originCamera (imageParams 640 480) (fun _ => originCamera) stalePixel
          stalePixel (fun _ => stalePixel))).direction = ⟨1, 0, 0⟩
    ∧ (planFrame (constantScene ⟨150, ⟨3, 0, 0⟩, false⟩) 1 0
        (plannerInit originCamera (imageParams 640 480) (fun _ => originCamera) stalePixel
          stalePixel (fun _ => stalePixel))).smooth_speed = 1
    ∧ (planFrame (constantScene ⟨150, ⟨3, 0, 0⟩, false⟩) 1 0
        (plannerInit originCamera (imageParams 640 480) (fun _ => originCamera) stalePixel
          stalePixel (fun _ => stalePixel))).camera_params.camPos = ⟨1, 0, 0⟩ := by
  have hmin : (planFrame (constantScene ⟨150, ⟨3, 0, 0⟩, false⟩) 1 0
        (plannerInit originCamera (imageParams 640 480) (fun _ => originCamera) stalePixel
          stalePixel (fun _ => stalePixel))).min_pix_data = ⟨100, ⟨9, 9, 9⟩, true⟩ := by
    rw [planFrame_min_pix_data, constantScene_sample _ _ _ _ _ _ (by decide) (by decide)
      (by norm_num)]
    rfl
  refine ⟨hmin, ?_, ?_, ?_, ?_⟩
  · rw [hmin]
    norm_num [bumpFactor]
  · rw [planFrame_direction, constantScene_sample _ _ _ _ _ _ (by decide) (by decide)
      (by norm_num)]
    norm_num [moveCamera, plannerInit, originCamera, constantScene, steer, blendDirection,
      directionNew, smoothDirection, clampDirError, MAGNITUDE, Vec3.Normalize, Vec3.sub,
      Vec3.add, Vec3.scale, sqrtQ_zero, sqrtQ_one, sqrtQ_nine]
  · rw [planFrame_smooth_speed, constantScene_sample _ _ _ _ _ _ (by decide) (by decide)
      (by norm_num)]
    norm_num [moveCamera, plannerInit, nextSmoothSpeed]
  · rw [planFrame_camera_params, constantScene_sample _ _ _ _ _ _ (by decide) (by decide)
      (by norm_num)]
    norm_num [moveCamera, plannerInit, originCamera, constantScene, nextSmoothSpeed, steer,
      blendDirection, directionNew, smoothDirection, clampDirError, MAGNITUDE, Vec3.Normalize,
      Vec3.sub, Vec3.add, Vec3.scale, bumpFactor, bumpVector, stalePixel, sqrtQ_zero, sqrtQ_one,
      sqrtQ_nine]

end SamplerClaims

/-! ## Claims on the path planner -/

section PlannerClaims

variable {K : Type} [LinearOrderedField K]

/-- C6. After every frame `smooth_speed` lies in `[0.01, 1]`: on return from
`generateCameraPath` for every number of frames, and after one frame from any state.
The frame computes it from the distance of the centre probe (times 1.1 above 0.1,
times 0.5 otherwise, then clamped), and the target is placed at
`camera_speed * smooth_speed + 1` along the direction, so the move rate of the frame
is `camera_speed * smooth_speed`. -/
theorem generateCameraPath_smooth_speed_range (ext : Collaborators K)
    (camera_params : CameraParams K) (renderer_params : RenderParams K)
    (camera_params_array : Nat → CameraParams K) (frames : Int) (camera_speed : K)
    (max_pix_data min_pix_data : pixelData K) (return_distances : Nat → pixelData K)
    (j : Nat) (s : PlannerState K) :
    (0.01 ≤ (generateCameraPath ext camera_params renderer_params camera_params_array frames
        camera_speed max_pix_data min_pix_data return_distances).smooth_speed
      ∧ (generateCameraPath ext camera_params renderer_params camera_params_array frames
        camera_speed max_pix_data min_pix_data return_distances).smooth_speed ≤ 1)
    ∧ (0.01 ≤ (planFrame ext camera_speed j s).smooth_speed
      ∧ (planFrame ext camera_speed j s).smooth_speed ≤ 1)
    ∧ (planFrame ext camera_speed j s).smooth_speed
      = nextSmoothSpeed s.smooth_speed
          (castRay ext (ext.init3D s.camera_params s.renderer_params) s.renderer_params
            (Int.tdiv s.renderer_params.width 2) (Int.tdiv s.renderer_params.height 2)).distance
    ∧ (planFrame ext camera_speed j s).camera_params.camPos
      = (ext.init3D s.camera_params s.renderer_params).camPos.add
          (((planFrame ext camera_speed j s).direction.scale
              (camera_speed * (planFrame ext camera_speed j s).smooth_speed)).add
            ((bumpVector ext.sqrt (ext.init3D s.camera_params s.renderer_params)
                (planFrame ext camera_speed j s).min_pix_data).scale
              (bumpFactor (planFrame ext camera_speed j s).min_pix_data)))
    ∧ (planFrame ext camera_speed j s).camera_params.camTarget
      = (planFrame ext camera_speed j s).camera_params.camPos.add
          ((planFrame ext camera_speed j s).direction.scale
            (camera_speed * (planFrame ext camera_speed j s).smooth_speed + 1)) := by
  refine ⟨?_, ?_, ?_, ?_, ?_⟩
  · unfold generateCameraPath
    refine forLoop_preserves _ _
      (fun (st : PlannerState K) => 0.01 ≤ st.smooth_speed ∧ st.smooth_speed ≤ 1) ?_ _ ?_
    · intro k st _ _
      exact nextSmoothSpeed_range _ _
    · simp only [plannerInit]
      norm_num
  · exact nextSmoothSpeed_range _ _
  · show nextSmoothSpeed s.smooth_speed _ = _
    rw [probe_slots]
    simp [probeCoordinate]
  · rfl
  · rfl

/-- The steered direction has unit length when the square root is exact and the
blend of line 298 is not the zero vector, as it is for a unit incoming direction. -/
theorem steer_unit (sqrt : K → K) (camera_params : CameraParams K)
    (max_pix_data : pixelData K) (direction : Vec3 K)
    (hsqrt : ∀ x : K, 0 ≤ x → sqrt x * sqrt x = x)
    (hblend : direction.normSq = 1
      ∨ (blendDirection sqrt camera_params max_pix_data direction).normSq ≠ 0) :
    (steer sqrt camera_params max_pix_data direction).normSq = 1 := by
  rw [steer_normSq]
  refine normSq_Normalize sqrt _ (hsqrt _ (normSq_nonneg _)) ?_
  rcases hblend with hd | hb
  · have hn : (directionNew sqrt camera_params max_pix_data).normSq ≤ 1 :=
      normSq_Normalize_le sqrt _ (hsqrt _ (normSq_nonneg _))
    have hr := smoothDirection_range sqrt direction
      (directionNew sqrt camera_params max_pix_data) max_pix_data.distance
    exact ne_of_gt (blend_normSq_pos direction _ _ hd hn hr.1 hr.2)
  · exact hb

/-- C7, as amended. With an exact square root, in a frame whose quotient of line 293
is a number (not `0/0`) and whose incoming direction has unit length, or more
generally whose blend of old and candidate direction is not the zero vector, the
direction has unit length after the steering update (blend, normalisation, optional
reversal). -/
theorem moveCamera_direction_unit (sqrt : K → K) (camera_speed : K) (r : PathSample K)
    (m : Motion K) (hsqrt : ∀ x : K, 0 ≤ x → sqrt x * sqrt x = x)
    (_hdef : dirErrorDefined
      (MAGNITUDE sqrt (m.direction.sub (directionNew sqrt m.camera_params r.max_pix_data)))
      r.max_pix_data.distance)
    (hblend : m.direction.normSq = 1
      ∨ (blendDirection sqrt m.camera_params r.max_pix_data m.direction).normSq ≠ 0) :
    (moveCamera sqrt camera_speed r m).direction.normSq = 1 :=
  steer_unit sqrt m.camera_params r.max_pix_data m.direction hsqrt hblend

theorem moveCamera_direction_unit_witness :
    (moveCamera Real.sqrt 1
      { max_pix_data := ⟨1, ⟨0, 3, 4⟩, false⟩, min_pix_data := ⟨1, ⟨0, 0, 1⟩, false⟩,
        return_distances := fun _ => ⟨1, ⟨0, 0, 0⟩, false⟩ }
      { camera_params := ⟨⟨0, 0, 0⟩, ⟨1, 0, 0⟩, 1, []⟩, direction := ⟨1, 0, 0⟩,
        smooth_speed := 1 }).direction.normSq = 1 :=
  moveCamera_direction_unit Real.sqrt 1 _ _ (fun x hx => Real.mul_self_sqrt hx)
    (by unfold dirErrorDefined; norm_num)
    (Or.inl (by norm_num [Vec3.normSq]))

/-- C7, counterexample. A pose whose position and target are both the origin, in a
scene whose farthest pixel is at distance 2000 with hit point `(1,0,0)`: the direction
starts as `(0,0,0)`, the error is below 0.01, the blend is the zero vector, and after
the first frame the direction is `(0,0,0)`, not a unit vector. The same happens for a
camera at `(14,8,10)` that looks at the origin, whose direction also starts as the
target coordinates `(0,0,0)`. -/
theorem generateCameraPath_zero_direction :
    ((generateCameraPath (constantScene ⟨2000, ⟨1, 0, 0⟩, false⟩) pointCamera
        (imageParams 640 480) (fun _ => pointCamera) 1 1 stalePixel stalePixel
        (fun _ => stalePixel)).direction = ⟨0, 0, 0⟩
      ∧ (generateCameraPath (constantScene ⟨2000, ⟨1, 0, 0⟩, false⟩) pointCamera
        (imageParams 640 480) (fun _ => pointCamera) 1 1 stalePixel stalePixel
        (fun _ => stalePixel)).direction.normSq ≠ 1)
    ∧ ((generateCameraPath (constantScene ⟨2000, ⟨15, 8, 10⟩, false⟩) offsetCamera
        (imageParams 640 480) (fun _ => offsetCamera) 1 1 stalePixel stalePixel
        (fun _ => stalePixel)).direction = ⟨0, 0, 0⟩
      ∧ (generateCameraPath (constantScene ⟨2000, ⟨15, 8, 10⟩, false⟩) offsetCamera
        (imageParams 640 480) (fun _ => offsetCamera) 1 1 stalePixel stalePixel
        (fun _ => stalePixel)).direction.normSq ≠ 1) := by
  have h1 : (generateCameraPath (constantScene ⟨2000, ⟨1, 0, 0⟩, false⟩) pointCamera
        (imageParams 640 480) (fun _ => pointCamera) 1 1 stalePixel stalePixel
        (fun _ => stalePixel)).direction = ⟨0, 0, 0⟩ := by
    rw [generateCameraPath_one, planFrame_direction,
      constantScene_sample _ _ _ _ _ _ (by decide) (by decide) (by norm_num)]
    norm_num [moveCamera, plannerInit, pointCamera, constantScene, steer, blendDirection,
      directionNew, smoothDirection, clampDirError, MAGNITUDE, Vec3.Normalize, Vec3.sub,
      Vec3.add, Vec3.scale, sqrtQ_zero, sqrtQ_one]
  have h2 : (generateCameraPath (constantScene ⟨2000, ⟨15, 8, 10⟩, false⟩) offsetCamera
        (imageParams 640 480) (fun _ => offsetCamera) 1 1 stalePixel stalePixel
        (fun _ => stalePixel)).direction = ⟨0, 0, 0⟩ := by
    rw [generateCameraPath_one, planFrame_direction,
      constantScene_sample _ _ _ _ _ _ (by decide) (by decide) (by norm_num)]
    norm_num [moveCamera, plannerInit, offsetCamera, constantScene, steer, blendDirection,
      directionNew, smoothDirection, clampDirError, MAGNITUDE, Vec3.Normalize, Vec3.sub,
      Vec3.add, Vec3.scale, sqrtQ_zero, sqrtQ_one]
  refine ⟨⟨h1, ?_⟩, ⟨h2, ?_⟩⟩
  · rw [h1]
    norm_num [Vec3.normSq]
  · rw [h2]
    norm_num [Vec3.normSq]

/-- C8, as amended. In a frame, with `p` the camera position before the step (after
`init3D`), `dir`
the steered direction and `move_rate = camera_speed * smooth_speed`: the new position
is `p + (dir*move_rate + bump*bump_factor)` with `bump` the normalised vector from the
nearest hit point to `p` and `bump_factor` the nearest distance over 10 below 0.001
and 0 otherwise; for a nearest distance of at least 0.001 the displacement is
`dir*move_rate`; the target is the new position plus `dir*(move_rate + 1)`; for a unit
`dir` the target lies at distance `|move_rate + 1|` from the new position, which is
`move_rate + 1` when that is not negative. -/
theorem moveCamera_position_target (sqrt : K → K) (camera_speed : K) (r : PathSample K)
    (m : Motion K) :
    (moveCamera sqrt camera_speed r m).direction
      = steer sqrt m.camera_params r.max_pix_data m.direction
    ∧ (moveCamera sqrt camera_speed r m).camera_params.camPos
      = m.camera_params.camPos.add
          (((moveCamera sqrt camera_speed r m).direction.scale
              (camera_speed * (moveCamera sqrt camera_speed r m).smooth_speed)).add
            ((Vec3.Normalize sqrt (m.camera_params.camPos.sub r.min_pix_data.hit)).scale
              (if r.min_pix_data.distance < 0.001 then r.min_pix_data.distance / 10 else 0)))
    ∧ (0.001 ≤ r.min_pix_data.distance →
        (moveCamera sqrt camera_speed r m).camera_params.camPos
          = m.camera_params.camPos.add
              ((moveCamera sqrt camera_speed r m).direction.scale
                (camera_speed * (moveCamera sqrt camera_speed r m).smooth_speed)))
    ∧ (moveCamera sqrt camera_speed r m).camera_params.camTarget
      = (moveCamera sqrt camera_speed r m).camera_params.camPos.add
          ((moveCamera sqrt camera_speed r m).direction.scale
            (camera_speed * (moveCamera sqrt camera_speed r m).smooth_speed + 1))
    ∧ ((moveCamera sqrt camera_speed r m).direction.normSq = 1 →
        distanceIs (moveCamera sqrt camera_speed r m).camera_params.camPos
          (moveCamera sqrt camera_speed r m).camera_params.camTarget
          |camera_speed * (moveCamera sqrt camera_speed r m).smooth_speed + 1|)
    ∧ ((moveCamera sqrt camera_speed r m).direction.normSq = 1 →
        0 ≤ camera_speed * (moveCamera sqrt camera_speed r m).smooth_speed + 1 →
        distanceIs (moveCamera sqrt camera_speed r m).camera_params.camPos
          (moveCamera sqrt camera_speed r m).camera_params.camTarget
          (camera_speed * (moveCamera sqrt camera_speed r m).smooth_speed + 1)) := by
  have hdist : ∀ (a d : Vec3 K) (c : K), d.normSq = 1 →
      ((a.add (d.scale c)).sub a).normSq = c * c := by
    intro a d c hd
    have : ((a.add (d.scale c)).sub a).normSq = c * c * d.normSq := by
      simp only [Vec3.normSq, Vec3.add, Vec3.scale, Vec3.sub]
      ring
    rw [this, hd, mul_one]
  refine ⟨rfl, rfl, ?_, rfl, ?_, ?_⟩
  · intro h
    exact moveCamera_camPos_no_bump sqrt camera_speed r m h
  · intro hd
    refine ⟨abs_nonneg _, ?_⟩
    rw [moveCamera_camTarget, hdist _ _ _ hd, abs_mul_abs_self]
  · intro hd h0
    refine ⟨h0, ?_⟩
    rw [moveCamera_camTarget, hdist _ _ _ hd]

theorem moveCamera_position_target_witness :
    (moveCamera sqrtQ 2 (probeSample 1 ⟨1, ⟨1, 0, 0⟩, false⟩ ⟨1, ⟨-1, 0, 0⟩, false⟩)
        originMotion).camera_params.camPos
      = originMotion.camera_params.camPos.add
          ((moveCamera sqrtQ 2 (probeSample 1 ⟨1, ⟨1, 0, 0⟩, false⟩ ⟨1, ⟨-1, 0, 0⟩, false⟩)
              originMotion).direction.scale
            (2 * (moveCamera sqrtQ 2 (probeSample 1 ⟨1, ⟨1, 0, 0⟩, false⟩ ⟨1, ⟨-1, 0, 0⟩, false⟩)
              originMotion).smooth_speed))
    ∧ distanceIs
        (moveCamera sqrtQ 2 (probeSample 1 ⟨1, ⟨1, 0, 0⟩, false⟩ ⟨1, ⟨-1, 0, 0⟩, false⟩)
          originMotion).camera_params.camPos
        (moveCamera sqrtQ 2 (probeSample 1 ⟨1, ⟨1, 0, 0⟩, false⟩ ⟨1, ⟨-1, 0, 0⟩, false⟩)
          originMotion).camera_params.camTarget
        (2 * (moveCamera sqrtQ 2 (probeSample 1 ⟨1, ⟨1, 0, 0⟩, false⟩ ⟨1, ⟨-1, 0, 0⟩, false⟩)
          originMotion).smooth_speed + 1) :=
  ⟨(moveCamera_position_target sqrtQ 2
      (probeSample 1 ⟨1, ⟨1, 0, 0⟩, false⟩ ⟨1, ⟨-1, 0, 0⟩, false⟩) originMotion).2.2.1
      (by norm_num [probeSample]),
   (moveCamera_position_target sqrtQ 2
      (probeSample 1 ⟨1, ⟨1, 0, 0⟩, false⟩ ⟨1, ⟨-1, 0, 0⟩, false⟩) originMotion).2.2.2.2.2
      (by norm_num [moveCamera, probeSample, originMotion, originCamera, steer,
        blendDirection, directionNew, smoothDirection, clampDirError, MAGNITUDE,
        Vec3.Normalize, Vec3.sub, Vec3.add, Vec3.scale, Vec3.normSq, sqrtQ_zero, sqrtQ_one])
      (by norm_num [moveCamera, probeSample, originMotion, nextSmoothSpeed])⟩

/-- C8, counterexample. With `camera_speed = -200`, a camera at the origin that looks
along the x axis, and a scene whose pixels all have distance 150: after one frame the
direction is the unit vector `(1,0,0)`, the position is `(-200,0,0)` and the target
`(-399,0,0)`; `move_rate + 1` is `-199`, which is not the distance between them. -/
theorem generateCameraPath_backward_target :
    (generateCameraPath (constantScene ⟨150, ⟨3, 0, 0⟩, false⟩) originCamera
        (imageParams 640 480) (fun _ => originCamera) 1 (-200) stalePixel stalePixel
        (fun _ => stalePixel)).direction = ⟨1, 0, 0⟩
    ∧ (generateCameraPath (constantScene ⟨150, ⟨3, 0, 0⟩, false⟩) originCamera
        (imageParams 640 480) (fun _ => originCamera) 1 (-200) stalePixel stalePixel
        (fun _ => stalePixel)).camera_params.camPos = ⟨-200, 0, 0⟩
    ∧ (generateCameraPath (constantScene ⟨150, ⟨3, 0, 0⟩, false⟩) originCamera
        (imageParams 640 480) (fun _ => originCamera) 1 (-200) stalePixel stalePixel
        (fun _ => stalePixel)).camera_params.camTarget = ⟨-399, 0, 0⟩
    ∧ (-200) * (generateCameraPath (constantScene ⟨150, ⟨3, 0, 0⟩, false⟩) originCamera
        (imageParams 640 480) (fun _ => originCamera) 1 (-200) stalePixel stalePixel
        (fun _ => stalePixel)).smooth_speed + 1 = -199
    ∧ ¬ distanceIs
        (generateCameraPath (constantScene ⟨150, ⟨3, 0, 0⟩, false⟩) originCamera
          (imageParams 640 480) (fun _ => originCamera) 1 (-200) stalePixel stalePixel
          (fun _ => stalePixel)).camera_params.camPos
        (generateCameraPath (constantScene ⟨150, ⟨3, 0, 0⟩, false⟩) originCamera
          (imageParams 640 480) (fun _ => originCamera) 1 (-200) stalePixel stalePixel
          (fun _ => stalePixel)).camera_params.camTarget
        ((-200) * (generateCameraPath (constantScene ⟨150, ⟨3, 0, 0⟩, false⟩) originCamera
          (imageParams 640 480) (fun _ => originCamera) 1 (-200) stalePixel stalePixel
          (fun _ => stalePixel)).smooth_speed + 1) := by
  have hs : (-200 : ℚ) * (generateCameraPath (constantScene ⟨150, ⟨3, 0, 0⟩, false⟩)
        originCamera (imageParams 640 480) (fun _ => originCamera) 1 (-200) stalePixel
        stalePixel (fun _ => stalePixel)).smooth_speed + 1 = -199 := by
    rw [generateCameraPath_one, planFrame_smooth_speed,
      constantScene_sample _ _ _ _ _ _ (by decide) (by decide) (by norm_num)]
    norm_num [moveCamera, plannerInit, nextSmoothSpeed]
  refine ⟨?_, ?_, ?_, hs, ?_⟩
  · rw [generateCameraPath_one, planFrame_direction,
      constantScene_sample _ _ _ _ _ _ (by decide) (by decide) (by norm_num)]
    norm_num [moveCamera, plannerInit, originCamera, constantScene, steer, blendDirection,
      directionNew, smoothDirection, clampDirError, MAGNITUDE, Vec3.Normalize, Vec3.sub,
      Vec3.add, Vec3.scale, sqrtQ_zero, sqrtQ_one, sqrtQ_nine]
  · rw [generateCameraPath_one, planFrame_camera_params,
      constantScene_sample _ _ _ _ _ _ (by decide) (by decide) (by norm_num)]
    norm_num [moveCamera, plannerInit, originCamera, constantScene, nextSmoothSpeed, steer,
      blendDirection, directionNew, smoothDirection, clampDirError, MAGNITUDE, Vec3.Normalize,
      Vec3.sub, Vec3.add, Vec3.scale, bumpFactor, bumpVector, stalePixel, sqrtQ_zero, sqrtQ_one,
      sqrtQ_nine]
  · rw [generateCameraPath_one, planFrame_camera_params,
      constantScene_sample _ _ _ _ _ _ (by decide) (by decide) (by norm_num)]
    norm_num [moveCamera, plannerInit, originCamera, constantScene, nextSmoothSpeed, steer,
      blendDirection, directionNew, smoothDirection, clampDirError, MAGNITUDE, Vec3.Normalize,
      Vec3.sub, Vec3.add, Vec3.scale, bumpFactor, bumpVector, stalePixel, sqrtQ_zero, sqrtQ_one,
      sqrtQ_nine]
  · rw [hs]
    intro h
    have h0 := h.1
    norm_num at h0

/-- C9, evaluation at the failing input. A camera at `(15/19,0,0)` whose target
`(15/19,1,0)` lies one unit along the y axis, with the farthest hit point `(15/19,2,0)`
straight ahead at distance 1. The direction the frame loop starts from is the target
`(15/19,1,0)`, not the look direction `(0,1,0)`; started from the look direction the
steering keeps `(0,1,0)`, while the first frame of the code ends with `(3/5,4/5,0)`. -/
theorem generateCameraPath_first_frame_direction :
    (generateCameraPath (constantScene ⟨1, ⟨15 / 19, 2, 0⟩, false⟩) skewCamera
        (imageParams 640 480) (fun _ => skewCamera) 0 1 stalePixel stalePixel
        (fun _ => stalePixel)).direction = ⟨15 / 19, 1, 0⟩
    ∧ skewCamera.camTarget.sub skewCamera.camPos = ⟨0, 1, 0⟩
    ∧ steer sqrtQ skewCamera ⟨1, ⟨15 / 19, 2, 0⟩, false⟩ ⟨0, 1, 0⟩ = ⟨0, 1, 0⟩
    ∧ (generateCameraPath (constantScene ⟨1, ⟨15 / 19, 2, 0⟩, false⟩) skewCamera
        (imageParams 640 480) (fun _ => skewCamera) 1 1 stalePixel stalePixel
        (fun _ => stalePixel)).direction = ⟨3 / 5, 4 / 5, 0⟩ := by
  refine ⟨?_, ?_, ?_, ?_⟩
  · simp [generateCameraPath, forLoop, plannerInit, skewCamera]
  · norm_num [skewCamera, Vec3.sub]
  · norm_num [skewCamera, steer, blendDirection, directionNew, smoothDirection, clampDirError,
      MAGNITUDE, Vec3.Normalize, Vec3.sub, Vec3.add, Vec3.scale, sqrtQ_zero, sqrtQ_one,
      sqrtQ_four]
  · rw [generateCameraPath_one, planFrame_direction,
      constantScene_sample_near _ _ _ _ _ _ (by decide) (by decide) (by norm_num) (by norm_num)]
    norm_num [moveCamera, plannerInit, skewCamera, constantScene, steer, blendDirection,
      directionNew, smoothDirection, clampDirError, MAGNITUDE, Vec3.Normalize, Vec3.sub,
      Vec3.add, Vec3.scale, sqrtQ_zero, sqrtQ_one, sqrtQ_four, sqrtQ_225_361, sqrtQ_25_16]

/-- C5. `generateCameraPath` runs its frame loop `frames` times: the sampler is
called `frames` times, the indices stored to in `camera_params_array` are
`0, ..., frames-1`, each once, entry `j` holds the camera reached at the end of
iteration `j` (the camera of the run with `j+1` frames), the entries from `frames` on
are unchanged, the camera on return is the last entry stored, and for `frames = 0`
the array is unchanged and nothing was sampled or stored. -/
theorem generateCameraPath_iterations (ext : Collaborators K) (camera_params : CameraParams K)
    (renderer_params : RenderParams K) (camera_params_array : Nat → CameraParams K)
    (frames : Int) (camera_speed : K) (max_pix_data min_pix_data : pixelData K)
    (return_distances : Nat → pixelData K) :
    sampleCount (generateCameraPath ext camera_params renderer_params camera_params_array
        frames camera_speed max_pix_data min_pix_data return_distances).events = frames.toNat
    ∧ storedIndices (generateCameraPath ext camera_params renderer_params camera_params_array
        frames camera_speed max_pix_data min_pix_data return_distances).events
      = List.range frames.toNat
    ∧ (∀ j : Nat, (j : Int) < frames →
        (generateCameraPath ext camera_params renderer_params camera_params_array
          frames camera_speed max_pix_data min_pix_data return_distances).camera_params_array j
        = (generateCameraPath ext camera_params renderer_params camera_params_array
          ((j : Int) + 1) camera_speed max_pix_data min_pix_data return_distances).camera_params)
    ∧ (∀ j : Nat, frames ≤ (j : Int) →
        (generateCameraPath ext camera_params renderer_params camera_params_array
          frames camera_speed max_pix_data min_pix_data return_distances).camera_params_array j
        = camera_params_array j)
    ∧ (0 < frames →
        (generateCameraPath ext camera_params renderer_params camera_params_array
          frames camera_speed max_pix_data min_pix_data return_distances).camera_params
        = (generateCameraPath ext camera_params renderer_params camera_params_array
          frames camera_speed max_pix_data min_pix_data return_distances).camera_params_array
            (frames.toNat - 1))
    ∧ ((generateCameraPath ext camera_params renderer_params camera_params_array
          0 camera_speed max_pix_data min_pix_data return_distances).camera_params_array
        = camera_params_array
      ∧ (generateCameraPath ext camera_params renderer_params camera_params_array
          0 camera_speed max_pix_data min_pix_data return_distances).events = []) := by
  have hG : generateCameraPath ext camera_params renderer_params camera_params_array
        frames camera_speed max_pix_data min_pix_data return_distances
      = generateCameraPath ext camera_params renderer_params camera_params_array
        ((frames.toNat : Nat) : Int) camera_speed max_pix_data min_pix_data return_distances := by
    unfold generateCameraPath forLoop
    rw [Int.toNat_ofNat]
  obtain ⟨h1, h2, h3, h4⟩ := generateCameraPath_frames ext camera_params renderer_params
    camera_params_array camera_speed max_pix_data min_pix_data return_distances frames.toNat
  rw [← hG] at h1 h2 h3 h4
  refine ⟨h1, h2, ?_, ?_, ?_, ?_, ?_⟩
  · intro j hj
    exact h3 j (by omega)
  · intro j hj
    exact h4 j (by omega)
  · intro hpos
    have hlt : frames.toNat - 1 < frames.toNat := by omega
    rw [h3 _ hlt]
    have : ((frames.toNat - 1 : Nat) : Int) + 1 = frames := by omega
    rw [this]
  · simp [generateCameraPath, forLoop, plannerInit]
  · simp [generateCameraPath, forLoop, plannerInit]

theorem generateCameraPath_iterations_witness :
    (generateCameraPath (constantScene ⟨150, ⟨3, 0, 0⟩, false⟩) originCamera
        (imageParams 640 480) (fun _ => originCamera) 3 1 stalePixel stalePixel
        (fun _ => stalePixel)).camera_params
      = (generateCameraPath (constantScene ⟨150, ⟨3, 0, 0⟩, false⟩) originCamera
        (imageParams 640 480) (fun _ => originCamera) 3 1 stalePixel stalePixel
        (fun _ => stalePixel)).camera_params_array 2 :=
  (generateCameraPath_iterations (constantScene ⟨150, ⟨3, 0, 0⟩, false⟩) originCamera
    (imageParams 640 480) (fun _ => originCamera) 3 1 stalePixel stalePixel
    (fun _ => stalePixel)).2.2.2.2.1 (by decide)

end PlannerClaims

/-! ## Claim on the frame renderer -/

section RendererClaims

variable {K : Type} [LinearOrderedField K] [FloorRing K]

/-- C3, as amended. In the one-thread execution, whatever the shared `farPoint` held
before, for a width and height that are not negative with `width*height*3` in the
range of `int`, for colours within the contract `[0,1]` of `getColour` and a product
of doubles that is the exact product rounded: `renderFractal` returns, and leaves at
the offsets `k`, `k+1`, `k+2` with `k = (j*width+i)*3` the blue, green and red
component of the colour of pixel `(i,j)` times 255, cast to `unsigned char`, which is
that product clamped to `[0,255]` without its fraction; every offset below
`width*height*3` is stored to exactly once; no other offset is stored to and the
memory there is unchanged. -/
theorem renderFractal_determines_buffer (ext : Collaborators K) (fl : K → K)
    (camera_params : CameraParams K) (renderer_params : RenderParams K) (farPoint : Vec3 K)
    (image : Int → Nat)
    (hw : 0 ≤ renderer_params.width) (hh : 0 ≤ renderer_params.height)
    (hsize : renderer_params.width * renderer_params.height * 3 < 2147483648)
    (hcol : colourContract ext camera_params renderer_params) (hfl : roundsToDouble fl) :
    ∃ st : RenderState K,
      renderFractalTraced ext fl camera_params renderer_params
          (oneThreadPixels renderer_params.width renderer_params.height) farPoint image = some st
      ∧ renderFractal ext fl camera_params renderer_params
          (oneThreadPixels renderer_params.width renderer_params.height) farPoint image
        = some st.image
      ∧ (∀ i j, inImage renderer_params.width renderer_params.height i j →
          (toUChar (fl ((pixelColour ext camera_params renderer_params i j).z * 255))
              = some (st.image ((j * renderer_params.width + i) * 3))
            ∧ st.image ((j * renderer_params.width + i) * 3)
              = clampedByte (fl ((pixelColour ext camera_params renderer_params i j).z * 255)))
          ∧ (toUChar (fl ((pixelColour ext camera_params renderer_params i j).y * 255))
              = some (st.image ((j * renderer_params.width + i) * 3 + 1))
            ∧ st.image ((j * renderer_params.width + i) * 3 + 1)
              = clampedByte (fl ((pixelColour ext camera_params renderer_params i j).y * 255)))
          ∧ (toUChar (fl ((pixelColour ext camera_params renderer_params i j).x * 255))
              = some (st.image ((j * renderer_params.width + i) * 3 + 2))
            ∧ st.image ((j * renderer_params.width + i) * 3 + 2)
              = clampedByte (fl ((pixelColour ext camera_params renderer_params i j).x * 255))))
      ∧ (∀ n : Int, 0 ≤ n → n < renderer_params.width * renderer_params.height * 3 →
          st.stores.count n = 1)
      ∧ (∀ n : Int, (n < 0 ∨ renderer_params.width * renderer_params.height * 3 ≤ n) →
          st.stores.count n = 0 ∧ st.image n = image n) := by
  obtain ⟨st, hst, hc, ho, hp⟩ := renderFractalTraced_done ext fl camera_params
    renderer_params farPoint image hw hh hsize hcol hfl
  have hcomm : renderer_params.width * renderer_params.height * 3
      = 3 * (renderer_params.height * renderer_params.width) := by ring
  refine ⟨st, hst, ?_, ?_, ?_, ?_⟩
  · unfold renderFractal
    rw [hst]
    rfl
  · intro i j hpix
    obtain ⟨⟨x0, x1⟩, ⟨y0, y1⟩, ⟨z0, z1⟩⟩ := hcol i j hpix
    obtain ⟨hi0, hi1, hj0, hj1⟩ := hpix
    have hlt := pixel_index_lt renderer_params.width renderer_params.height i j hi1 hj1 hw
    have e : (j * renderer_params.width + i) * 3 = 3 * (j * renderer_params.width + i) := by
      ring
    obtain ⟨b0, b1, b2⟩ := hp i j hi0 hi1 hj0 hlt
    rw [e, b0, b1, b2]
    exact ⟨⟨toUChar_of_range _ (fl_range fl hfl _ z0 z1).1 (fl_range fl hfl _ z0 z1).2, rfl⟩,
      ⟨toUChar_of_range _ (fl_range fl hfl _ y0 y1).1 (fl_range fl hfl _ y0 y1).2, rfl⟩,
      ⟨toUChar_of_range _ (fl_range fl hfl _ x0 x1).1 (fl_range fl hfl _ x0 x1).2, rfl⟩⟩
  · intro n h0 h1
    rw [hc n, if_pos ⟨h0, by omega⟩]
  · intro n hn
    have hout : ¬ (0 ≤ n ∧ n < 3 * (renderer_params.height * renderer_params.width)) := by
      omega
    refine ⟨?_, ho n hout⟩
    rw [hc n, if_neg hout]

theorem renderFractal_determines_buffer_witness :
    colourContract twoRayScene originCamera (imageParams 1 2)
    ∧ roundsToDouble roundEighth
    ∧ ∃ st : RenderState ℚ,
      renderFractalTraced twoRayScene roundEighth originCamera (imageParams 1 2)
          (oneThreadPixels (imageParams 1 2).width (imageParams 1 2).height) ⟨0, 0, 0⟩
          (fun _ => 7) = some st
      ∧ (∀ n : Int, 0 ≤ n → n < (imageParams 1 2).width * (imageParams 1 2).height * 3 →
          st.stores.count n = 1) := by
  obtain ⟨st, h1, _, _, h4, _⟩ := renderFractal_determines_buffer twoRayScene roundEighth
    originCamera (imageParams 1 2) ⟨0, 0, 0⟩ (fun _ => 7) (by decide) (by decide) (by decide)
    twoRayScene_colours roundEighth_rounds
  exact ⟨twoRayScene_colours, roundEighth_rounds, st, h1, h4⟩

/-- C3, counterexample. A 32768 by 32768 image: the offset `(21846*32768+0)*3 =
2147549184` of pixel `(0,21846)` lies below `width*height*3` and is no value of `int`,
so the offset of line 104 is undefined and the call has no defined result. A 1x2 image
rendered by two threads, one row each: when the thread of row 1 writes the shared
`farPoint` between line 92 and line 96 of the thread of row 0, the red byte of pixel
`(0,0)` at offset 2 is 204, the red byte of the colour of pixel `(0,1)`, where the
colour of pixel `(0,0)` gives 153, the byte the one-thread execution stores. -/
theorem renderFractal_overflow_and_shared_farPoint :
    ((21846 * 32768 + 0) * 3 = (2147549184 : Int)
      ∧ (2147549184 : Int) < 32768 * 32768 * 3
      ∧ ¬ ((2147549184 : Int) ≤ 2147483647)
      ∧ pixelOffset 32768 0 21846 = none
      ∧ renderFractal twoRayScene roundEighth originCamera (imageParams 32768 32768)
          (oneThreadPixels 32768 32768) ⟨0, 0, 0⟩ (fun _ => 7) = none)
    ∧ ((renderFractal twoRayScene roundEighth originCamera (imageParams 1 2) twoThreadPixels
          ⟨0, 0, 0⟩ (fun _ => 7)).map (fun img => img ((0 * 1 + 0) * 3 + 2)) = some 204
      ∧ toUChar (roundEighth
          ((pixelColour twoRayScene originCamera (imageParams 1 2) 0 1).x * 255)) = some 204
      ∧ toUChar (roundEighth
          ((pixelColour twoRayScene originCamera (imageParams 1 2) 0 0).x * 255)) = some 153
      ∧ (renderFractal twoRayScene roundEighth originCamera (imageParams 1 2)
          (oneThreadPixels 1 2) ⟨0, 0, 0⟩ (fun _ => 7)).map
            (fun img => img ((0 * 1 + 0) * 3 + 2)) = some 153) := by
  have r204 : roundEighth 204 = 204 := by simpa using roundEighth_intCast 204
  have r153 : roundEighth 153 = 153 := by simpa using roundEighth_intCast 153
  have r0 : roundEighth 0 = 0 := by simpa using roundEighth_intCast 0
  have u204 : toUChar (204 : ℚ) = some 204 := by
    simpa using @toUChar_natCast ℚ _ _ 204 (by norm_num)
  have u153 : toUChar (153 : ℚ) = some 153 := by
    simpa using @toUChar_natCast ℚ _ _ 153 (by norm_num)
  have u0 : toUChar (0 : ℚ) = some 0 := by
    simpa using @toUChar_natCast ℚ _ _ 0 (by norm_num)
  have o0 : pixelOffset 1 0 0 = some 0 := by decide
  have o1 : pixelOffset 1 0 1 = some 3 := by decide
  have c2 : checkInt 2 = some 2 := by decide
  have c1 : checkInt 1 = some 1 := by decide
  have c5 : checkInt 5 = some 5 := by decide
  have c4 : checkInt 4 = some 4 := by decide
  have hlist : oneThreadPixels 1 2
      = [PixelStep.project 0 0, PixelStep.store 0 0, PixelStep.project 0 1,
        PixelStep.store 0 1] := rfl
  have hoff : pixelOffset (imageParams 32768 32768).width 0 21846 = none := by decide
  have hmem : PixelStep.store 0 21846 ∈ oneThreadPixels 32768 32768 :=
    store_mem_oneThreadPixels 32768 32768 0 21846 (by norm_num) (by norm_num)
  refine ⟨⟨by norm_num, by norm_num, by norm_num, by decide, ?_⟩, ?_, ?_, ?_, ?_⟩
  · unfold renderFractal renderFractalTraced
    rw [runPixelSteps_undefined twoRayScene roundEighth originCamera (imageParams 32768 32768)
      0 21846 _ _ hmem hoff]
    rfl
  · norm_num [renderFractal, renderFractalTraced, runPixelSteps, twoThreadPixels, pixelStep,
      colourFrom, twoRayScene, originCamera, imageParams, SubtractDoubleDouble, Vec3.Normalize,
      sqrtQ_25, r204, r153, r0, u204, u153, u0, o0, o1, c1, c2, c4, c5, Function.update]
  · norm_num [pixelColour, castRay, rayDirection, twoRayScene, originCamera,
      SubtractDoubleDouble, Vec3.Normalize, sqrtQ_25, r204, u204]
  · norm_num [pixelColour, castRay, rayDirection, twoRayScene, originCamera,
      SubtractDoubleDouble, Vec3.Normalize, sqrtQ_25, r153, u153]
  · rw [hlist]
    norm_num [renderFractal, renderFractalTraced, runPixelSteps, pixelStep,
      colourFrom, twoRayScene, originCamera, imageParams, SubtractDoubleDouble, Vec3.Normalize,
      sqrtQ_25, r204, r153, r0, u204, u153, u0, o0, o1, c1, c2, c4, c5, Function.update]

end RendererClaims

end Mandelbox
